import Mathlib

/-!
# Shallow embedding of the Boat_Valve application

This file embeds the core of `src/app.py` (the Flask "boat valve" demo:
geometry cache, point classifiers, rejection-sampling boat generator,
valve toggling and the valve-opening history log) and the generator of the
older variant `src/first_app/app.py`, and proves the specification claims
about them.

Modelling conventions:
* Python floats for coordinates are modelled by rationals; `round(x, 6)`
  is modelled by decimal rounding on rationals (no claim depends on the
  tie-breaking behaviour of float rounding of coordinates).
* A shapely geometry is modelled by its observable behaviour: an emptiness
  flag plus a containment test that may raise (`Except` models a Python
  exception escaping `geometry.contains`).
* Randomness (`random.choice`, `random.uniform`, `random.randint`,
  `random.shuffle`) is modelled by explicit oracle functions supplied in an
  environment record; `random.randint(10, 999)` is modelled as
  `10 + k % 990`, which has exactly the same range.
* ISO-8601 UTC timestamp strings compare lexicographically in chronological
  order, so history timestamps are modelled as naturals.
* Mutation of the process-global `APP_DATA` / `NEXT_BOAT_ID` is modelled by
  explicit state passing of an `AppState` record.
-/

/-- A geographic point (latitude, longitude). -/
structure Pt where
  lat : ℚ
  lng : ℚ
deriving DecidableEq

/-- Model of a shapely geometry as observed by `src/app.py`: the `is_empty`
flag and the containment test, which may raise an exception (modelled by
`Except.error`). -/
structure Geom where
  is_empty : Bool
  contains : Pt → Except String Bool

/-- `EMPTY_GEOMETRY = MultiPolygon()` (src/app.py line 16): the empty
sentinel.  An empty shapely geometry contains no point and never raises. -/
def EMPTY_GEOMETRY : Geom :=
  { is_empty := true, contains := fun _ => Except.ok false }

/-- `is_in_zone(lat, lng, buffer_geometry)` (src/app.py lines 199-211).
`gp` is the global `GEOPANDAS_AVAILABLE` flag; `none` models passing Python
`None` as the geometry.  Exceptions from the containment engine are caught
and turned into `False`. -/
def is_in_zone (gp : Bool) (p : Pt) (buffer_geometry : Option Geom) : Bool :=
  if gp = false then false
  else
    match buffer_geometry with
    | none => false
    | some g =>
      if g.is_empty then false
      else
        match g.contains p with
        | Except.ok b => b
        | Except.error _ => false

/-- `is_on_land(lat, lng, land_geometry)` (src/app.py lines 213-225);
textually identical to `is_in_zone` up to the geometry argument. -/
def is_on_land (gp : Bool) (p : Pt) (land_geometry : Option Geom) : Bool :=
  if gp = false then false
  else
    match land_geometry with
    | none => false
    | some g =>
      if g.is_empty then false
      else
        match g.contains p with
        | Except.ok b => b
        | Except.error _ => false

/-- One entry of a `sea_boxes` list (src/app.py lines 46-76). -/
structure SeaBox where
  name : String
  min_lat : ℚ
  max_lat : ℚ
  min_lng : ℚ
  max_lng : ℚ
deriving DecidableEq

/-- One entry of `COUNTRY_CONFIG` (src/app.py lines 38-78). -/
structure CountryConfig where
  simplified_land_shp : String
  buffer_shp : String
  map_center : ℚ × ℚ
  map_zoom : Nat
  target_buffer_crs : String
  sea_boxes : List SeaBox
deriving DecidableEq

/-- `COUNTRY_CONFIG` (src/app.py lines 38-78), as an association list in the
dict's insertion order. -/
def COUNTRY_CONFIG : List (String × CountryConfig) :=
  [("uk",
    { simplified_land_shp := "CTRY_DEC_2024_UK_BFC_simplified_100m.shp"
      buffer_shp := "CTRY_DEC_2024_UK_BFC_buffer_3nm_simplified_100m.shp"
      map_center := (54.5, -2.0)
      map_zoom := 5
      target_buffer_crs := "EPSG:27700"
      sea_boxes :=
        [⟨"North Sea", 53.0, 58.0, 1.0, 3.0⟩,
         ⟨"English Channel E", 49.5, 50.5, -1.0, 1.0⟩,
         ⟨"English Channel W", 49.0, 50.0, -6.0, -4.0⟩,
         ⟨"Irish Sea", 52.5, 54.5, -5.5, -3.5⟩] }),
   ("croatia",
    { simplified_land_shp := "Croatia coastline CSR meters_simplified_1m.shp"
      buffer_shp := "croatiacoast5556mbuffer.shp"
      map_center := (44.5, 16.5)
      map_zoom := 7
      target_buffer_crs := "EPSG:32633"
      sea_boxes :=
        [⟨"Adriatic N", 44.5, 45.5, 13.5, 14.5⟩,
         ⟨"Adriatic Mid", 43.0, 44.0, 15.0, 16.0⟩,
         ⟨"Adriatic S", 42.0, 43.0, 16.5, 17.5⟩] }),
   ("svg",
    { simplified_land_shp := "SVGcoast+.shp"
      buffer_shp := "SVGcoast+1000mbuffer.shp"
      map_center := (13.2, -61.2)
      map_zoom := 10
      target_buffer_crs := "EPSG:32620"
      sea_boxes :=
        [⟨"SVG Main", 13.05, 13.4, -61.3, -61.0⟩,
         ⟨"Grenadines N", 12.8, 13.05, -61.35, -61.1⟩,
         ⟨"Grenadines S", 12.5, 12.8, -61.5, -61.2⟩] })]

/-- `NUM_BOATS_PER_COUNTRY = 50` (src/app.py line 80). -/
def NUM_BOATS_PER_COUNTRY : Nat := 50

/-- Models Python `round(num_boats * 0.20)` (src/app.py line 245) on a
natural `num_boats`.  The exact value `num_boats / 5` is never a
half-integer (`2n ≡ 0 [MOD 5]` forces `n ≡ 0 [MOD 5]`), and for every
natural below `2^50` the double product `n * 0.2` lies on the same side of
every half-integer as the exact `n / 5`, so Python's banker's rounding
agrees with rounding half up: `round(n * 0.2) = ⌊n/5 + 1/2⌋ = (2n+5)/10`. -/
def num_inside_target (num_boats : Nat) : Nat :=
  (2 * num_boats + 5) / 10

/-- `max_attempts_multiplier = 350` (src/app.py line 252). -/
def max_attempts_multiplier : Nat := 350

/-- `base_names` (src/app.py line 250). -/
def base_names : List String :=
  ["Sea Eagle", "Adriatic Queen", "Dalmatian Dream", "Wave Runner",
   "Island Hopper", "Blue Fin", "Sun Seeker", "Coastal Voyager",
   "Neptune's Kiss", "Poseidon's Pride", "Channel Spirit", "Northern Light",
   "Southern Cross", "Mid-Sea Drifter", "Buffer Skimmer", "Zone Tester",
   "Caribbean Breeze", "Grenadine Ghost"]

/-- Decimal rounding of a rational to 6 places, modelling Python
`round(lat, 6)` (src/app.py lines 272, 290); no claim depends on float
tie-breaking here. -/
def round6 (x : ℚ) : ℚ :=
  ((round (x * 1000000) : ℤ) : ℚ) / 1000000

/-- A boat dict as built by `generate_boats` (src/app.py lines 270-272,
288-290). -/
structure Boat where
  id : Nat
  name : String
  lat : ℚ
  lng : ℚ
  valveOpen : Bool
  country : String
deriving DecidableEq

/-- The randomness consumed by one call of `generate_boats`, as oracle
functions of the attempt counter of the loop that draws them. -/
structure GenEnv where
  sample_inside : Nat → Pt
  name_idx_inside : Nat → Nat
  name_num_inside : Nat → Nat
  valve_inside : Nat → Bool
  sample_outside : Nat → Pt
  name_idx_outside : Nat → Nat
  name_num_outside : Nat → Nat
  valve_outside : Nat → Bool
  shuffle : List Boat → List Boat

/-- Python truthiness test `GEOPANDAS_AVAILABLE and geometry and not
geometry.is_empty` (src/app.py lines 236-237): `None` and an empty shapely
geometry are both falsy. -/
def geom_valid (gp : Bool) (g : Option Geom) : Bool :=
  gp && (match g with
         | none => false
         | some geom => !geom.is_empty)

/-- Acceptance test of the inside loop (src/app.py lines 266-269):
`point_is_in_zone and not point_is_on_land`, where each classifier call is
guarded by the corresponding validity flag. -/
def accept_inside (gp : Bool) (buffer_geometry land_geometry : Option Geom)
    (p : Pt) : Bool :=
  (if geom_valid gp buffer_geometry then is_in_zone gp p buffer_geometry
   else false)
  && !(if geom_valid gp land_geometry then is_on_land gp p land_geometry
       else false)

/-- Acceptance test of the outside loop (src/app.py lines 284-287):
`not point_is_in_zone and not point_is_on_land`. -/
def accept_outside (gp : Bool) (buffer_geometry land_geometry : Option Geom)
    (p : Pt) : Bool :=
  !(if geom_valid gp buffer_geometry then is_in_zone gp p buffer_geometry
    else false)
  && !(if geom_valid gp land_geometry then is_on_land gp p land_geometry
       else false)

/-- `f"{random.choice(base_names)} {random.randint(10, 999)}"`
(src/app.py lines 271, 289): the choice is modelled by an index into
`base_names`, the 990 possible values of `randint(10, 999)` by
`10 + num % 990`. -/
def mk_boat_name (idx num : Nat) : String :=
  base_names.getD (idx % base_names.length) "" ++ " "
    ++ Nat.repr (10 + num % 990)

/-- The boat dict appended by the inside loop (src/app.py lines 270-272). -/
def mk_inside (env : GenEnv) (country_code : String) (nid attempt : Nat) :
    Boat :=
  { id := nid
    name := mk_boat_name (env.name_idx_inside attempt)
      (env.name_num_inside attempt) ++ " (InZone)"
    lat := round6 (env.sample_inside attempt).lat
    lng := round6 (env.sample_inside attempt).lng
    valveOpen := env.valve_inside attempt
    country := country_code }

/-- The boat dict appended by the outside loop (src/app.py lines 288-290). -/
def mk_outside (env : GenEnv) (country_code : String) (nid attempt : Nat) :
    Boat :=
  { id := nid
    name := mk_boat_name (env.name_idx_outside attempt)
      (env.name_num_outside attempt)
    lat := round6 (env.sample_outside attempt).lat
    lng := round6 (env.sample_outside attempt).lng
    valveOpen := env.valve_outside attempt
    country := country_code }

/-- One rejection-sampling `while` loop of `generate_boats` (src/app.py
lines 258-273 and 276-291): `while len(acc) < target and attempts <
max_attempts`, where `fuel` is the number of attempts still allowed
(`max_attempts - attempts`) so the loop guard `attempts < max_attempts` is
`fuel > 0`.  Each attempt increments `attempts`, samples a point, and on
acceptance appends `mk nid attempts` and increments the id allocator.
Returns (accepted boats, next id, final attempt counter). -/
def rejection_loop (sample : Nat → Pt) (accept : Pt → Bool)
    (mk : Nat → Nat → Boat) (target : Nat) :
    Nat → Nat → List Boat → Nat → List Boat × Nat × Nat
  | 0, attempts, acc, nid => (acc, nid, attempts)
  | fuel + 1, attempts, acc, nid =>
    if acc.length < target then
      if accept (sample attempts) then
        rejection_loop sample accept mk target fuel (attempts + 1)
          (acc ++ [mk nid attempts]) (nid + 1)
      else
        rejection_loop sample accept mk target fuel (attempts + 1) acc nid
    else (acc, nid, attempts)

/-- `generate_boats` (src/app.py lines 227-299) up to the final shuffle:
returns `(boats_inside, boats_outside, NEXT_BOAT_ID')`.  `gp` is
`GEOPANDAS_AVAILABLE`; `nid` is the incoming value of the global
`NEXT_BOAT_ID`. -/
def generate_boats_parts (gp : Bool) (env : GenEnv) (country_code : String)
    (num_boats : Nat) (buffer_geometry land_geometry : Option Geom)
    (nid : Nat) : List Boat × List Boat × Nat :=
  match COUNTRY_CONFIG.lookup country_code with
  | none => ([], [], nid)
  | some config =>
    if config.sea_boxes.isEmpty then ([], [], nid)
    else
      let inside_target := num_inside_target num_boats
      let outside_target := num_boats - inside_target
      let r1 := rejection_loop env.sample_inside
        (accept_inside gp buffer_geometry land_geometry)
        (mk_inside env country_code) inside_target
        (inside_target * max_attempts_multiplier) 0 [] nid
      let r2 := rejection_loop env.sample_outside
        (accept_outside gp buffer_geometry land_geometry)
        (mk_outside env country_code) outside_target
        (outside_target * max_attempts_multiplier) 0 [] r1.2.1
      (r1.1, r2.1, r2.2.1)

/-- `generate_boats` (src/app.py lines 227-299): the returned value is
`random.shuffle(boats_inside + boats_outside)`; also returns the updated
`NEXT_BOAT_ID`. -/
def generate_boats (gp : Bool) (env : GenEnv) (country_code : String)
    (num_boats : Nat) (buffer_geometry land_geometry : Option Geom)
    (nid : Nat) : List Boat × Nat :=
  let r := generate_boats_parts gp env country_code num_boats
    buffer_geometry land_geometry nid
  (env.shuffle (r.1 ++ r.2.1), r.2.2)

/-- A history record as appended by `toggle_valve` (src/app.py lines
426-431).  Timestamps (ISO-8601 UTC strings, lexicographically ordered)
are modelled as naturals. -/
structure HistoryEntry where
  boatId : Nat
  boatName : String
  timestamp : Nat
  lat : ℚ
  lng : ℚ
  inZone : Bool
  status : String
  country : String
deriving DecidableEq

/-- The mutable process state `APP_DATA` plus `NEXT_BOAT_ID` (src/app.py
lines 85-91).  The dicts are association lists; overwriting a key is
modelled by prepending, and `List.lookup` returns the most recent
binding. -/
structure AppState where
  boats : List (String × List Boat)
  history : List HistoryEntry
  buffer_geometries : List (String × Geom)
  land_geometries : List (String × Geom)
  next_boat_id : Nat

/-- The initial `APP_DATA` / `NEXT_BOAT_ID = 301` (src/app.py lines 85-91). -/
def initialState : AppState :=
  { boats := [], history := [], buffer_geometries := [],
    land_geometries := [], next_boat_id := 301 }

/-- Outcome of one attempt of the geometry loader for one (country, kind)
slot, as observed by `get_buffer_geometry` / `get_land_geometry`:
the source file is missing; an exception is raised while reading,
repairing or unioning; the file holds no valid sub-polygons; or loading
succeeds with the combined unioned geometry. -/
inductive LoadOutcome where
  | missingFile
  | raised (msg : String)
  | noValidGeoms
  | loaded (g : Geom)

/-- The environment of the cache getters: the `GEOPANDAS_AVAILABLE` flag
and the loader outcome per country for each of the two kinds. -/
structure LoaderEnv where
  geopandas : Bool
  load_buffer : String → LoadOutcome
  load_land : String → LoadOutcome

/-- The geometry stored by a cache getter for a given loader outcome:
the combined geometry on success, the empty sentinel on every failure
(missing file, exception, no valid sub-polygons). -/
def load_result (o : LoadOutcome) : Geom :=
  match o with
  | LoadOutcome.missingFile => EMPTY_GEOMETRY
  | LoadOutcome.raised _ => EMPTY_GEOMETRY
  | LoadOutcome.noValidGeoms => EMPTY_GEOMETRY
  | LoadOutcome.loaded g => g

/-- `get_buffer_geometry(country_code)` (src/app.py lines 104-150).
Every failure path (missing file, exception, no valid geometries) stores
and returns `EMPTY_GEOMETRY`; a successful load stores and returns the
combined geometry; a cached slot is returned as is. -/
def get_buffer_geometry (env : LoaderEnv) (st : AppState)
    (country_code : String) : Geom × AppState :=
  if env.geopandas = false then (EMPTY_GEOMETRY, st)
  else if (COUNTRY_CONFIG.lookup country_code).isNone then (EMPTY_GEOMETRY, st)
  else
    match st.buffer_geometries.lookup country_code with
    | some g => (g, st)
    | none =>
      let g := load_result (env.load_buffer country_code)
      (g, { st with
            buffer_geometries := (country_code, g) :: st.buffer_geometries })

/-- `get_land_geometry(country_code)` (src/app.py lines 152-197); textually
identical to `get_buffer_geometry` up to the slot and loader used. -/
def get_land_geometry (env : LoaderEnv) (st : AppState)
    (country_code : String) : Geom × AppState :=
  if env.geopandas = false then (EMPTY_GEOMETRY, st)
  else if (COUNTRY_CONFIG.lookup country_code).isNone then (EMPTY_GEOMETRY, st)
  else
    match st.land_geometries.lookup country_code with
    | some g => (g, st)
    | none =>
      let g := load_result (env.load_land country_code)
      (g, { st with
            land_geometries := (country_code, g) :: st.land_geometries })

/-- The inner search-and-flip of `toggle_valve` over one country's boat
list (src/app.py lines 404-414): the first boat whose id matches is flipped
in place; returns the updated list and the flipped boat, if found. -/
def toggle_first : List Boat → Nat → List Boat × Option Boat
  | [], _ => ([], none)
  | b :: bs, boat_id =>
    if b.id == boat_id then
      (({ b with valveOpen := !b.valveOpen }) :: bs,
       some { b with valveOpen := !b.valveOpen })
    else
      let r := toggle_first bs boat_id
      (b :: r.1, r.2)

/-- The outer search of `toggle_valve` over `APP_DATA["boats"]`
(src/app.py lines 404-408): countries are scanned in dict order and the
scan stops at the first country containing the id. -/
def toggle_in_store : List (String × List Boat) → Nat →
    List (String × List Boat) × Option (String × Boat)
  | [], _ => ([], none)
  | (c, bs) :: rest, boat_id =>
    match toggle_first bs boat_id with
    | (bs', some b') => ((c, bs') :: rest, some (c, b'))
    | (bs', none) =>
      let r := toggle_in_store rest boat_id
      ((c, bs') :: r.1, r.2)

/-- `toggle_valve(boat_id)` (src/app.py lines 397-436).  `now` is the
timestamp `datetime.now(timezone.utc)` of this request.  Returns `none`
for the 404 case, otherwise the `(boatId, valveOpen)` of the JSON reply.
A history entry is appended only when the new status is open; its
`in_zone` field is computed against the cached buffer geometry (which
`get_buffer_geometry` may load and cache as a side effect). -/
def toggle_valve (env : LoaderEnv) (now : Nat) (st : AppState)
    (boat_id : Nat) : Option (Nat × Bool) × AppState :=
  match toggle_in_store st.boats boat_id with
  | (_, none) => (none, st)
  | (boats', some (country_code, target_boat)) =>
    let new_status := target_boat.valveOpen
    let st1 := { st with boats := boats' }
    if new_status then
      let r := get_buffer_geometry env st1 country_code
      let buffer_geometry := r.1
      let in_zone :=
        if !buffer_geometry.is_empty then
          is_in_zone env.geopandas ⟨target_boat.lat, target_boat.lng⟩
            (some buffer_geometry)
        else false
      let history_entry : HistoryEntry :=
        { boatId := target_boat.id
          boatName := target_boat.name
          timestamp := now
          lat := target_boat.lat
          lng := target_boat.lng
          inZone := in_zone
          status := if in_zone then "Illegal Disposal (Opened in Zone)"
                    else "Opened Outside Zone"
          country := country_code }
      (some (boat_id, new_status),
       { r.2 with history := r.2.history ++ [history_entry] })
    else
      (some (boat_id, new_status), st1)

/-- Insertion step of the model of Python
`sorted(history, key=timestamp, reverse=True)`: `r` is inserted after every
strictly more recent record and before every record that is as old or
older, so equal timestamps keep insertion order. -/
def insert_desc (r : HistoryEntry) : List HistoryEntry → List HistoryEntry
  | [] => [r]
  | x :: xs =>
    if r.timestamp < x.timestamp then x :: insert_desc r xs
    else r :: x :: xs

/-- Model of Python `sorted(APP_DATA["history"], key=timestamp,
reverse=True)` (src/app.py line 442): a stable descending sort by
timestamp. -/
def sorted_desc : List HistoryEntry → List HistoryEntry
  | [] => []
  | x :: xs => insert_desc x (sorted_desc xs)

/-- `get_history()` (src/app.py lines 438-442). -/
def get_history (st : AppState) : List HistoryEntry :=
  sorted_desc st.history

/-- Outcome of loading one shapefile for display inside `get_map_data`
(src/app.py lines 331-366): success with a GeoJSON string, a
`FileNotFoundError`, or any other exception. -/
inductive DisplayOutcome where
  | geojson (s : String)
  | fileNotFound (msg : String)
  | failed (msg : String)

/-- Environment of one `get_map_data` request: the backend loader
environment, the outcome of the two display loads, and the randomness of
a potential `generate_boats` call. -/
structure MapEnv where
  loader : LoaderEnv
  display_land : String → DisplayOutcome
  display_buffer : String → DisplayOutcome
  gen : GenEnv

/-- Models Python `country.lower()` (src/app.py line 317) by per-character
lowering of the character list. -/
def str_lower (s : String) : String :=
  String.mk (s.data.map Char.toLower)

/-- The JSON body returned by `get_map_data` (src/app.py lines 392-395). -/
structure MapResponse where
  land : Option String
  buffer : Option String
  boats : List Boat
  center : ℚ × ℚ
  zoom : Nat
  errors : Option (List String)

/-- Result of a request handler: the JSON reply, or `abort(code)`. -/
inductive HttpResult (α : Type) where
  | ok (a : α)
  | httpAbort (code : Nat) (msg : String)

/-- The warning appended when `get_map_data` skips boat generation
(src/app.py line 383). -/
def skip_warning (country_code : String) : String :=
  "WARNING: Skipping boat generation for " ++ country_code
    ++ " due to missing/invalid backend geometry."

/-- Error messages of the two display-load `try` blocks
(src/app.py lines 344-347, 363-366). -/
def display_errors (kind : String) (o : DisplayOutcome) :
    Option String × List String :=
  match o with
  | DisplayOutcome.geojson s => (some s, [])
  | DisplayOutcome.fileNotFound e =>
    (none, ["ERROR: " ++ kind ++ " file not found: " ++ e])
  | DisplayOutcome.failed e =>
    (none, ["ERROR processing " ++ kind ++ " display file: " ++ e])

/-- `get_map_data(country)` (src/app.py lines 310-395): aborts 500 without
geopandas and 404 for an unknown region; loads the two display GeoJSON
blobs, collecting error strings; loads the two backend geometries through
the cache; generates boats for the region on first visit only, and only
when both backend geometries are non-empty, otherwise stores an empty
list and appends `skip_warning`; replies with the region's current boat
list and `errors = None` when no error string was collected. -/
def get_map_data (env : MapEnv) (st : AppState) (country : String) :
    HttpResult MapResponse × AppState :=
  if env.loader.geopandas = false then
    (HttpResult.httpAbort 500 "Geospatial library (GeoPandas) not available.",
     st)
  else
    let country_code := str_lower country
    match COUNTRY_CONFIG.lookup country_code with
    | none =>
      (HttpResult.httpAbort 404
        ("Configuration for country '" ++ country ++ "' not found."), st)
    | some config =>
      let dl := display_errors "Land" (env.display_land country_code)
      let db := display_errors "Buffer" (env.display_buffer country_code)
      let r1 := get_buffer_geometry env.loader st country_code
      let r2 := get_land_geometry env.loader r1.2 country_code
      let buffer_geometry := r1.1
      let land_geometry := r2.1
      let can_generate_safely :=
        !buffer_geometry.is_empty && !land_geometry.is_empty
      let st2 := r2.2
      let next :=
        match st2.boats.lookup country_code with
        | some _ => (st2, dl.2 ++ db.2)
        | none =>
          if can_generate_safely then
            let g := generate_boats env.loader.geopandas env.gen country_code
              NUM_BOATS_PER_COUNTRY (some buffer_geometry)
              (some land_geometry) st2.next_boat_id
            ({ st2 with boats := (country_code, g.1) :: st2.boats,
                        next_boat_id := g.2 }, dl.2 ++ db.2)
          else
            ({ st2 with boats := (country_code, []) :: st2.boats },
             dl.2 ++ db.2 ++ [skip_warning country_code])
      let st3 := next.1
      let error_messages := next.2
      let boat_list := (st3.boats.lookup country_code).getD []
      (HttpResult.ok
        { land := dl.1, buffer := db.1, boats := boat_list,
          center := config.map_center, zoom := config.map_zoom,
          errors := if error_messages.isEmpty then none
                    else some error_messages }, st3)

/-- A boat dict of the older variant (src/first_app/app.py lines 187-192):
no country field. -/
structure FABoat where
  id : Nat
  name : String
  lat : ℚ
  lng : ℚ
  valveOpen : Bool
deriving DecidableEq

/-- Randomness oracle for `generate_boats` of src/first_app/app.py. -/
structure FAEnv where
  sample : Nat → Pt
  name_idx : Nat → Nat
  suffix_idx : Nat → Nat
  valve : Nat → Bool

/-- `boat_names` (src/first_app/app.py line 174). -/
def fa_boat_names : List String :=
  ["Sea Eagle", "Adriatic Queen", "Dalmatian Dream", "Split Runner",
   "Island Hopper", "Blue Wave", "Sun Seeker", "Coastal Voyager"]

/-- The suffix pool of src/first_app/app.py line 189. -/
def fa_suffixes : List String :=
  ["I", "II", "III", "IV", "V", ""]

/-- `NUM_BOATS = 100` (src/first_app/app.py line 23). -/
def FA_NUM_BOATS : Nat := 100

/-- The boat dict appended at attempt `attempt` when `len(boats_data) =
len` (src/first_app/app.py lines 187-192): id `201 + len`;
`f"{name} {suffix}".strip()` drops the trailing space of the empty
suffix. -/
def fa_mk (env : FAEnv) (attempt len : Nat) : FABoat :=
  let bn := fa_boat_names.getD (env.name_idx attempt % fa_boat_names.length) ""
  let sfx := fa_suffixes.getD (env.suffix_idx attempt % fa_suffixes.length) ""
  { id := 201 + len
    name := if sfx.isEmpty then bn else bn ++ " " ++ sfx
    lat := round6 (env.sample attempt).lat
    lng := round6 (env.sample attempt).lng
    valveOpen := env.valve attempt }

/-- The generation loop of src/first_app/app.py lines 177-192:
`while len(boats_data) < NUM_BOATS and attempts < max_attempts`, with
`fuel = max_attempts - attempts`.  Every attempt appends a boat (the
in-zone rejection check is commented out in the source). -/
def fa_loop (env : FAEnv) : Nat → Nat → List FABoat → List FABoat
  | 0, _, acc => acc
  | fuel + 1, attempts, acc =>
    if acc.length < FA_NUM_BOATS then
      fa_loop env fuel (attempts + 1) (acc ++ [fa_mk env attempts acc.length])
    else acc

/-- `generate_boats()` (src/first_app/app.py lines 172-194): resets
`boats_data` to `[]` and runs the loop with `max_attempts = NUM_BOATS * 5`. -/
def fa_generate_boats (env : FAEnv) : List FABoat :=
  fa_loop env (FA_NUM_BOATS * 5) 0 []

/-- `get_boats` (src/first_app/app.py lines 198-201) acting on the global
`boats_data`: regenerates only when the store is empty. -/
def fa_get_boats_step (env : FAEnv) (boats_data : List FABoat) :
    List FABoat :=
  if boats_data.isEmpty then fa_generate_boats env else boats_data

/-- A trace of `k` successive `get_boats` requests of src/first_app/app.py,
carrying `(boats_data, created)` where `created` is the ghost log of every
vessel ever created by `generate_boats` during the trace. -/
def fa_get_boats_trace (env : FAEnv) : Nat → List FABoat × List FABoat →
    List FABoat × List FABoat
  | 0, st => st
  | k + 1, ([], created) =>
    fa_get_boats_trace env k
      (fa_generate_boats env, created ++ fa_generate_boats env)
  | k + 1, (b :: bd, created) => fa_get_boats_trace env k (b :: bd, created)

/-- `s.endsWith t`, spelt out on the character lists. -/
def strEndsWith (s t : String) : Bool :=
  t.data.isSuffixOf s.data

/-- `t` is a contiguous run of `s`. -/
def charsInfix (t : List Char) : List Char → Bool
  | [] => t.isEmpty
  | c :: cs => t.isPrefixOf (c :: cs) || charsInfix t cs

/-- `t` occurs somewhere in `s`, spelt out on the character lists. -/
def strMentions (s t : String) : Bool :=
  charsInfix t.data s.data

/-- A non-empty geometry containing no point; used as a concrete instance. -/
def geomNothing : Geom :=
  { is_empty := false, contains := fun _ => Except.ok false }

/-- A non-empty geometry whose containment engine always raises. -/
def geomRaising : Geom :=
  { is_empty := false, contains := fun _ => Except.error "GEOSException" }

/-- A non-empty geometry containing exactly the points of latitude 1. -/
def latOneGeom : Geom :=
  { is_empty := false, contains := fun p => Except.ok (p.lat == 1) }

/-- A concrete deterministic randomness oracle: the inside loop always draws
latitude-1 points, the outside loop latitude-0 points, and the shuffle is
the identity permutation. -/
def testGenEnv : GenEnv :=
  { sample_inside := fun _ => ⟨1, 0⟩
    name_idx_inside := fun i => i
    name_num_inside := fun i => i
    valve_inside := fun _ => false
    sample_outside := fun _ => ⟨0, 0⟩
    name_idx_outside := fun i => i
    name_num_outside := fun i => i
    valve_outside := fun _ => true
    shuffle := id }

/-- A concrete loader environment: buffer sources hold no valid geometry,
land sources load `geomNothing`. -/
def testLoaderEnv : LoaderEnv :=
  { geopandas := true
    load_buffer := fun _ => LoadOutcome.noValidGeoms
    load_land := fun _ => LoadOutcome.loaded geomNothing }

/-- Concrete environment of the `get_map_data` counterexample: both display
loads succeed, the backend buffer slot has no valid geometries (hence loads
as the empty sentinel) while the backend land slot loads a valid non-empty
geometry. -/
def cexMapEnv : MapEnv :=
  { loader := testLoaderEnv
    display_land := fun _ => DisplayOutcome.geojson "land-geojson"
    display_buffer := fun _ => DisplayOutcome.geojson "buffer-geojson"
    gen := testGenEnv }

/-- The boat list of a map-data reply (empty for an aborted request). -/
def respBoats (r : HttpResult MapResponse) : List Boat :=
  match r with
  | HttpResult.ok resp => resp.boats
  | HttpResult.httpAbort _ _ => []

/-- The errors list of a map-data reply (`none` for an aborted request). -/
def respErrors (r : HttpResult MapResponse) : Option (List String) :=
  match r with
  | HttpResult.ok resp => resp.errors
  | HttpResult.httpAbort _ _ => none

/-- Whether a map-data request succeeded. -/
def respIsOk (r : HttpResult MapResponse) : Bool :=
  match r with
  | HttpResult.ok _ => true
  | HttpResult.httpAbort _ _ => false

/-- One unfolding of the loop in the accepting case. -/
theorem rejection_loop_step_accept (sample : Nat → Pt) (accept : Pt → Bool)
    (mk : Nat → Nat → Boat) (target fuel attempts : Nat) (acc : List Boat)
    (nid : Nat) (h : acc.length < target)
    (ha : accept (sample attempts) = true) :
    rejection_loop sample accept mk target (fuel + 1) attempts acc nid
      = rejection_loop sample accept mk target fuel (attempts + 1)
          (acc ++ [mk nid attempts]) (nid + 1) := by
  simp [rejection_loop, h, ha]

/-- One unfolding of the loop in the rejecting case. -/
theorem rejection_loop_step_reject (sample : Nat → Pt) (accept : Pt → Bool)
    (mk : Nat → Nat → Boat) (target fuel attempts : Nat) (acc : List Boat)
    (nid : Nat) (h : acc.length < target)
    (ha : accept (sample attempts) = false) :
    rejection_loop sample accept mk target (fuel + 1) attempts acc nid
      = rejection_loop sample accept mk target fuel (attempts + 1) acc nid := by
  simp [rejection_loop, h, ha]

/-- One unfolding of the loop once the target is reached. -/
theorem rejection_loop_step_done (sample : Nat → Pt) (accept : Pt → Bool)
    (mk : Nat → Nat → Boat) (target fuel attempts : Nat) (acc : List Boat)
    (nid : Nat) (h : ¬ acc.length < target) :
    rejection_loop sample accept mk target (fuel + 1) attempts acc nid
      = (acc, nid, attempts) := by
  simp [rejection_loop, h]

/-- Everything the rejection loop guarantees about the boats it appends,
provided `mk` stamps its first argument as the boat id (which both
`mk_inside` and `mk_outside` do): the result extends the accumulator with
a block of boats whose ids are exactly the consecutive ids starting at the
incoming allocator value, the allocator advances by the block length, and
every appended boat was built by `mk`. -/
theorem rejection_loop_spec (sample : Nat → Pt) (accept : Pt → Bool)
    (mk : Nat → Nat → Boat) (target : Nat)
    (hmk : ∀ i j, (mk i j).id = i) :
    ∀ fuel attempts acc nid,
      ∃ nb : List Boat,
        (rejection_loop sample accept mk target fuel attempts acc nid).1
          = acc ++ nb ∧
        nb.map Boat.id = List.range' nid nb.length ∧
        (rejection_loop sample accept mk target fuel attempts acc nid).2.1
          = nid + nb.length ∧
        (∀ b ∈ nb, ∃ i j, b = mk i j) := by
  intro fuel
  induction fuel with
  | zero =>
    intro attempts acc nid
    exact ⟨[], by simp [rejection_loop]⟩
  | succ fuel ih =>
    intro attempts acc nid
    by_cases h : acc.length < target
    · by_cases ha : accept (sample attempts)
      · obtain ⟨nb, h1, h2, h3, h4⟩ :=
          ih (attempts + 1) (acc ++ [mk nid attempts]) (nid + 1)
        rw [rejection_loop_step_accept sample accept mk target fuel attempts
          acc nid h ha]
        refine ⟨mk nid attempts :: nb, ?_, ?_, ?_, ?_⟩
        · rw [h1]; simp
        · simp [List.range', hmk, h2]
        · rw [h3]; simp only [List.length_cons]; omega
        · intro b hb
          rcases List.mem_cons.mp hb with hb | hb
          · exact ⟨nid, attempts, hb⟩
          · exact h4 b hb
      · obtain ⟨nb, h1, h2, h3, h4⟩ := ih (attempts + 1) acc nid
        rw [rejection_loop_step_reject sample accept mk target fuel attempts
          acc nid h (by simpa using ha)]
        exact ⟨nb, h1, h2, h3, h4⟩
    · rw [rejection_loop_step_done sample accept mk target fuel attempts
        acc nid h]
      exact ⟨[], by simp⟩

/-- The rejection loop never accumulates past its target. -/
theorem rejection_loop_length_le (sample : Nat → Pt) (accept : Pt → Bool)
    (mk : Nat → Nat → Boat) (target : Nat) :
    ∀ fuel attempts acc nid, acc.length ≤ target →
      (rejection_loop sample accept mk target fuel attempts acc nid).1.length
        ≤ target := by
  intro fuel
  induction fuel with
  | zero => intro attempts acc nid hle; simpa [rejection_loop] using hle
  | succ fuel ih =>
    intro attempts acc nid hle
    by_cases h : acc.length < target
    · by_cases ha : accept (sample attempts)
      · rw [rejection_loop_step_accept sample accept mk target fuel attempts
          acc nid h ha]
        exact ih (attempts + 1) (acc ++ [mk nid attempts]) (nid + 1)
          (by simp; omega)
      · rw [rejection_loop_step_reject sample accept mk target fuel attempts
          acc nid h (by simpa using ha)]
        exact ih (attempts + 1) acc nid hle
    · rw [rejection_loop_step_done sample accept mk target fuel attempts
        acc nid h]
      exact hle

/-- The loop stops exactly when its target is filled or its attempt budget
(the fuel) is exhausted, and never uses more than `attempts + fuel`
attempts. -/
theorem rejection_loop_budget (sample : Nat → Pt) (accept : Pt → Bool)
    (mk : Nat → Nat → Boat) (target : Nat) :
    ∀ fuel attempts acc nid, acc.length ≤ target →
      (rejection_loop sample accept mk target fuel attempts acc nid).2.2
        ≤ attempts + fuel ∧
      ((rejection_loop sample accept mk target fuel attempts acc nid).1.length
          = target ∨
       (rejection_loop sample accept mk target fuel attempts acc nid).2.2
          = attempts + fuel) := by
  intro fuel
  induction fuel with
  | zero =>
    intro attempts acc nid hle
    simp [rejection_loop]
  | succ fuel ih =>
    intro attempts acc nid hle
    by_cases h : acc.length < target
    · by_cases ha : accept (sample attempts)
      · rw [rejection_loop_step_accept sample accept mk target fuel attempts
          acc nid h ha]
        have := ih (attempts + 1) (acc ++ [mk nid attempts]) (nid + 1)
          (by simp; omega)
        refine ⟨by omega, ?_⟩
        rcases this.2 with h2 | h2
        · exact Or.inl h2
        · exact Or.inr (by omega)
      · rw [rejection_loop_step_reject sample accept mk target fuel attempts
          acc nid h (by simpa using ha)]
        have := ih (attempts + 1) acc nid hle
        refine ⟨by omega, ?_⟩
        rcases this.2 with h2 | h2
        · exact Or.inl h2
        · exact Or.inr (by omega)
    · rw [rejection_loop_step_done sample accept mk target fuel attempts
        acc nid h]
      constructor
      · show attempts ≤ attempts + (fuel + 1)
        omega
      · left
        show acc.length = target
        omega

/-- A loop whose acceptance test is constantly false accepts nothing and
leaves the id allocator untouched. -/
theorem rejection_loop_none (sample : Nat → Pt) (accept : Pt → Bool)
    (mk : Nat → Nat → Boat) (target : Nat)
    (hacc : ∀ p, accept p = false) :
    ∀ fuel attempts acc nid,
      (rejection_loop sample accept mk target fuel attempts acc nid).1 = acc ∧
      (rejection_loop sample accept mk target fuel attempts acc nid).2.1
        = nid := by
  intro fuel
  induction fuel with
  | zero => intro attempts acc nid; simp [rejection_loop]
  | succ fuel ih =>
    intro attempts acc nid
    by_cases h : acc.length < target
    · rw [rejection_loop_step_reject sample accept mk target fuel attempts
        acc nid h (hacc _)]
      exact ih (attempts + 1) acc nid
    · rw [rejection_loop_step_done sample accept mk target fuel attempts
        acc nid h]
      exact ⟨rfl, rfl⟩

/-- A failed search leaves the boat list unchanged. -/
theorem toggle_first_none (boat_id : Nat) :
    ∀ bs bs' : List Boat, toggle_first bs boat_id = (bs', none) → bs' = bs := by
  intro bs
  induction bs with
  | nil =>
    intro bs' h
    injection h with h1 h2
    exact h1.symm
  | cons b bs ih =>
    intro bs' h
    by_cases hb : b.id == boat_id
    · simp [toggle_first, hb] at h
    · rcases hr : toggle_first bs boat_id with ⟨bs₁, r₁⟩
      simp only [toggle_first, hb, Bool.false_eq_true, if_neg, if_false,
        hr] at h
      injection h with h1 h2
      subst h2
      rw [← h1, ih bs₁ hr]

/-- Flipping the found boat twice restores the original list, and the
second flip reports the double-flipped boat. -/
theorem toggle_first_twice (boat_id : Nat) :
    ∀ bs bs' : List Boat, ∀ b' : Boat,
      toggle_first bs boat_id = (bs', some b') →
      toggle_first bs' boat_id
        = (bs, some { b' with valveOpen := !b'.valveOpen }) := by
  intro bs
  induction bs with
  | nil => intro bs' b' h; simp [toggle_first] at h
  | cons b bs ih =>
    intro bs' b' h
    by_cases hb : b.id == boat_id
    · simp only [toggle_first, hb, if_pos, Prod.mk.injEq,
        Option.some.injEq] at h
      obtain ⟨hbs', hb'⟩ := h
      subst hbs'; subst hb'
      simp only [toggle_first, hb, if_pos, Bool.not_not]
    · simp only [toggle_first, hb, Bool.false_eq_true, if_neg,
        if_false, Prod.mk.injEq] at h
      obtain ⟨hbs', hr⟩ := h
      rcases hr' : toggle_first bs boat_id with ⟨bs₁, r₁⟩
      rw [hr'] at hbs' hr
      cases r₁ with
      | none => simp at hr
      | some b₁ =>
        simp only [Option.some.injEq] at hr
        subst hr
        subst hbs'
        have := ih bs₁ b₁ hr'
        simp only [toggle_first, hb, Bool.false_eq_true, if_neg, if_false,
          this]

/-- A failed store-wide search leaves the store unchanged. -/
theorem toggle_in_store_none (boat_id : Nat) :
    ∀ store store' : List (String × List Boat),
      toggle_in_store store boat_id = (store', none) → store' = store := by
  intro store
  induction store with
  | nil =>
    intro store' h
    injection h with h1 h2
    exact h1.symm
  | cons e rest ih =>
    obtain ⟨c, bs⟩ := e
    intro store' h
    rcases hf : toggle_first bs boat_id with ⟨bs', r⟩
    cases r with
    | some b' => simp [toggle_in_store, hf] at h
    | none =>
      rcases hr : toggle_in_store rest boat_id with ⟨rest', r₁⟩
      simp only [toggle_in_store, hf, hr] at h
      injection h with h1 h2
      subst h2
      have hbs : bs' = bs := toggle_first_none boat_id bs bs' hf
      rw [← h1, hbs, ih rest' hr]

/-- Toggling the same id twice restores the original store, and the second
toggle reports the same country with the double-flipped boat. -/
theorem toggle_in_store_twice (boat_id : Nat) :
    ∀ store store' : List (String × List Boat), ∀ c : String, ∀ b' : Boat,
      toggle_in_store store boat_id = (store', some (c, b')) →
      toggle_in_store store' boat_id
        = (store, some (c, { b' with valveOpen := !b'.valveOpen })) := by
  intro store
  induction store with
  | nil => intro store' c b' h; simp [toggle_in_store] at h
  | cons e rest ih =>
    obtain ⟨c₀, bs⟩ := e
    intro store' c b' h
    rcases hf : toggle_first bs boat_id with ⟨bs', r⟩
    cases r with
    | some b₁ =>
      simp only [toggle_in_store, hf, Prod.mk.injEq, Option.some.injEq] at h
      obtain ⟨hstore', hc, hb⟩ := h
      subst hstore'; subst hc; subst hb
      have h2 := toggle_first_twice boat_id bs bs' b₁ hf
      simp only [toggle_in_store, h2]
    | none =>
      rcases hr : toggle_in_store rest boat_id with ⟨rest', r₁⟩
      simp only [toggle_in_store, hf, hr] at h
      injection h with h1 h2
      subst h2
      subst h1
      have hbs : bs' = bs := toggle_first_none boat_id bs bs' hf
      subst hbs
      have h3 := ih rest' c b' hr
      simp only [toggle_in_store, hf, h3]

/-- Inserting is a permutation-preserving cons. -/
theorem insert_desc_perm (r : HistoryEntry) :
    ∀ l : List HistoryEntry, (insert_desc r l).Perm (r :: l) := by
  intro l
  induction l with
  | nil => simp [insert_desc]
  | cons x xs ih =>
    by_cases h : r.timestamp < x.timestamp
    · simp only [insert_desc, h, if_pos]
      exact ((ih.cons x).trans (List.Perm.swap r x xs))
    · simp [insert_desc, h]

/-- Inserting into a descending list keeps it descending. -/
theorem insert_desc_pairwise (r : HistoryEntry) :
    ∀ l : List HistoryEntry,
      l.Pairwise (fun a b => b.timestamp ≤ a.timestamp) →
      (insert_desc r l).Pairwise (fun a b => b.timestamp ≤ a.timestamp) := by
  intro l
  induction l with
  | nil => intro _; simp [insert_desc]
  | cons x xs ih =>
    intro hp
    rw [List.pairwise_cons] at hp
    by_cases h : r.timestamp < x.timestamp
    · simp only [insert_desc, h, if_pos]
      rw [List.pairwise_cons]
      constructor
      · intro y hy
        have hmem := (insert_desc_perm r xs).mem_iff.mp hy
        rcases List.mem_cons.mp hmem with hy' | hy'
        · subst hy'; omega
        · exact hp.1 y hy'
      · exact ih hp.2
    · simp only [insert_desc, h, if_neg, if_false]
      rw [List.pairwise_cons]
      constructor
      · intro y hy
        rcases List.mem_cons.mp hy with hy | hy
        · subst hy; omega
        · have := hp.1 y hy; omega
      · exact List.pairwise_cons.mpr hp

/-- Inserting adds the new record in front of every record of its own
timestamp (every record passed over is strictly more recent), so the
records of any fixed timestamp stay in insertion order. -/
theorem insert_desc_filter (r : HistoryEntry) (t : Nat) :
    ∀ l : List HistoryEntry,
      (insert_desc r l).filter (fun e => e.timestamp == t)
        = if r.timestamp == t
          then r :: l.filter (fun e => e.timestamp == t)
          else l.filter (fun e => e.timestamp == t) := by
  intro l
  induction l with
  | nil => by_cases hr : r.timestamp == t <;> simp [insert_desc, hr]
  | cons x xs ih =>
    by_cases h : r.timestamp < x.timestamp
    · simp only [insert_desc, h, if_pos]
      by_cases hr : r.timestamp == t
      · have hx : (x.timestamp == t) = false := by
          have hrt : r.timestamp = t := by simpa using hr
          have hne : x.timestamp ≠ t := by omega
          simpa using hne
        simp only [List.filter_cons, hx, Bool.false_eq_true, if_neg,
          if_false, ih, hr, if_pos]
      · by_cases hx : x.timestamp == t
        · simp [List.filter_cons, hx, ih, hr]
        · simp [List.filter_cons, hx, ih, hr]
    · simp only [insert_desc, h, if_neg, if_false]
      by_cases hr : r.timestamp == t
      · simp [List.filter_cons, hr]
      · simp [List.filter_cons, hr]

/-- The sort is a permutation. -/
theorem sorted_desc_perm :
    ∀ l : List HistoryEntry, (sorted_desc l).Perm l := by
  intro l
  induction l with
  | nil => simp [sorted_desc]
  | cons x xs ih =>
    exact (insert_desc_perm x (sorted_desc xs)).trans (ih.cons x)

/-- The sort output is descending by timestamp. -/
theorem sorted_desc_pairwise :
    ∀ l : List HistoryEntry,
      (sorted_desc l).Pairwise (fun a b => b.timestamp ≤ a.timestamp) := by
  intro l
  induction l with
  | nil => simp [sorted_desc]
  | cons x xs ih => exact insert_desc_pairwise x (sorted_desc xs) ih

/-- Stability: for every timestamp, the records of that timestamp appear in
the output exactly as they appear in the input. -/
theorem sorted_desc_filter (t : Nat) :
    ∀ l : List HistoryEntry,
      (sorted_desc l).filter (fun e => e.timestamp == t)
        = l.filter (fun e => e.timestamp == t) := by
  intro l
  induction l with
  | nil => rfl
  | cons x xs ih =>
    rw [sorted_desc, insert_desc_filter, ih]
    by_cases hx : x.timestamp == t
    · simp [List.filter_cons, hx]
    · simp [List.filter_cons, hx]

/-- Length of the first_app generation loop: every attempt appends, so the
loop fills up to its target or runs out of fuel. -/
theorem fa_loop_length (env : FAEnv) :
    ∀ fuel attempts acc, acc.length ≤ FA_NUM_BOATS →
      (fa_loop env fuel attempts acc).length
        = min FA_NUM_BOATS (acc.length + fuel) := by
  intro fuel
  induction fuel with
  | zero =>
    intro attempts acc hle
    simp only [fa_loop]
    omega
  | succ fuel ih =>
    intro attempts acc hle
    by_cases h : acc.length < FA_NUM_BOATS
    · simp only [fa_loop, h, if_pos]
      rw [ih (attempts + 1) (acc ++ [fa_mk env attempts acc.length])
        (by simp; omega)]
      simp only [List.length_append, List.length_cons, List.length_nil]
      omega
    · simp only [fa_loop, h, if_neg, if_false]
      omega

/-- Ids of the first_app generation loop: the `201 + len(boats_data)`
scheme allocates consecutive ids from 201 within one call. -/
theorem fa_loop_ids (env : FAEnv) :
    ∀ fuel attempts acc,
      acc.map FABoat.id = List.range' 201 acc.length →
      (fa_loop env fuel attempts acc).map FABoat.id
        = List.range' 201 (fa_loop env fuel attempts acc).length := by
  intro fuel
  induction fuel with
  | zero => intro attempts acc hacc; simpa [fa_loop] using hacc
  | succ fuel ih =>
    intro attempts acc hacc
    by_cases h : acc.length < FA_NUM_BOATS
    · simp only [fa_loop, h, if_pos]
      apply ih
      simp only [List.map_append, List.length_append, hacc, List.map_cons,
        List.map_nil, List.length_cons, List.length_nil]
      rw [List.range'_1_concat]
      rfl
    · simp only [fa_loop, h, if_neg, if_false]
      exact hacc

/-- `generate_boats` of src/first_app/app.py always creates exactly 100
boats with the consecutive ids 201..300. -/
theorem fa_generate_boats_spec (env : FAEnv) :
    (fa_generate_boats env).length = FA_NUM_BOATS ∧
    (fa_generate_boats env).map FABoat.id
      = List.range' 201 FA_NUM_BOATS := by
  have hlen : (fa_generate_boats env).length = FA_NUM_BOATS := by
    have := fa_loop_length env (FA_NUM_BOATS * 5) 0 [] (by simp)
    simpa [fa_generate_boats, FA_NUM_BOATS] using this
  constructor
  · exact hlen
  · have h2 := fa_loop_ids env (FA_NUM_BOATS * 5) 0 [] (by simp)
    have h3 : (fa_loop env (FA_NUM_BOATS * 5) 0 []).length = FA_NUM_BOATS :=
      hlen
    rw [h3] at h2
    exact h2

attribute [irreducible] fa_generate_boats

/-- Once the first_app store is non-empty, `get_boats` never regenerates. -/
theorem fa_trace_fixed (env : FAEnv) :
    ∀ k bd cr, bd ≠ [] → fa_get_boats_trace env k (bd, cr) = (bd, cr) := by
  intro k
  induction k with
  | zero => intro bd cr _; rfl
  | succ k ih =>
    intro bd cr hne
    cases bd with
    | nil => exact absurd rfl hne
    | cons b bd =>
      have hstep : fa_get_boats_trace env (k + 1) (b :: bd, cr)
          = fa_get_boats_trace env k (b :: bd, cr) := rfl
      rw [hstep]
      exact ih (b :: bd) cr hne

/-- The in-zone suffix appended to inside-loop boat names. -/
theorem strEndsWith_inZone (s : String) :
    strEndsWith (s ++ " (InZone)") "(InZone)" = true := by
  have hsfx : "(InZone)".data <:+ (s ++ " (InZone)").data := by
    show "(InZone)".data <:+ s.data ++ " (InZone)".data
    exact ⟨s.data ++ [' '], by simp⟩
  exact (List.isSuffixOf_iff_suffix).mpr hsfx

set_option maxRecDepth 10000 in
/-- The decimal rendering of every value `random.randint(10, 999)` can take
is non-empty and ends in a digit, not in `)`. -/
theorem repr_randint_last :
    ∀ m : Nat, m < 990 →
      ((Nat.repr (10 + m)).data ≠ [] ∧
       (Nat.repr (10 + m)).data.getLast? ≠ some ')') := by decide

/-- An outside-loop boat name (`"<base> <number>"`) never ends with the
in-zone suffix, because it ends with a digit. -/
theorem mk_boat_name_not_inZone (idx num : Nat) :
    strEndsWith (mk_boat_name idx num) "(InZone)" = false := by
  have hm : num % 990 < 990 := Nat.mod_lt _ (by norm_num)
  obtain ⟨hne, hlast⟩ := repr_randint_last (num % 990) hm
  have h1 : (mk_boat_name idx num).data
      = (base_names.getD (idx % base_names.length) "" ++ " ").data
        ++ (Nat.repr (10 + num % 990)).data := rfl
  have h2 : (mk_boat_name idx num).data.getLast?
      = (Nat.repr (10 + num % 990)).data.getLast? := by
    rw [h1]
    exact List.getLast?_append_of_ne_nil _ hne
  by_cases hsf : ("(InZone)".data.isSuffixOf (mk_boat_name idx num).data)
      = true
  · exfalso
    obtain ⟨pre, hpre⟩ := (List.isSuffixOf_iff_suffix).mp hsf
    have h3 : (mk_boat_name idx num).data.getLast? = some ')' := by
      rw [← hpre, List.getLast?_append_of_ne_nil _ (by decide)]
      rfl
    exact hlast (h2 ▸ h3)
  · show ("(InZone)".data.isSuffixOf (mk_boat_name idx num).data) = false
    exact Bool.eq_false_iff.mpr hsf

/-- Concatenation of two consecutive id ranges. -/
theorem range'_append_one (s m n : Nat) :
    List.range' s m ++ List.range' (s + m) n = List.range' s (m + n) := by
  have h := List.range'_append s m n 1
  rw [one_mul] at h
  rw [h, Nat.add_comm n m]

/-- `generate_boats_parts` for an unknown region. -/
theorem generate_boats_parts_unknown (gp : Bool) (env : GenEnv)
    (country_code : String) (num_boats : Nat)
    (buffer_geometry land_geometry : Option Geom) (nid : Nat)
    (hcfg : COUNTRY_CONFIG.lookup country_code = none) :
    generate_boats_parts gp env country_code num_boats buffer_geometry
      land_geometry nid = ([], [], nid) := by
  simp [generate_boats_parts, hcfg]

/-- `generate_boats_parts` for a region without sea boxes. -/
theorem generate_boats_parts_noboxes (gp : Bool) (env : GenEnv)
    (country_code : String) (num_boats : Nat)
    (buffer_geometry land_geometry : Option Geom) (nid : Nat)
    (config : CountryConfig)
    (hcfg : COUNTRY_CONFIG.lookup country_code = some config)
    (hsb : config.sea_boxes.isEmpty = true) :
    generate_boats_parts gp env country_code num_boats buffer_geometry
      land_geometry nid = ([], [], nid) := by
  simp [generate_boats_parts, hcfg, hsb]

/-- `generate_boats_parts` in the main case: the two rejection loops run
sequentially, the outside loop starting from the id allocator left by the
inside loop. -/
theorem generate_boats_parts_main (gp : Bool) (env : GenEnv)
    (country_code : String) (num_boats : Nat)
    (buffer_geometry land_geometry : Option Geom) (nid : Nat)
    (config : CountryConfig)
    (hcfg : COUNTRY_CONFIG.lookup country_code = some config)
    (hsb : config.sea_boxes.isEmpty = false) :
    generate_boats_parts gp env country_code num_boats buffer_geometry
      land_geometry nid =
      ((rejection_loop env.sample_inside
          (accept_inside gp buffer_geometry land_geometry)
          (mk_inside env country_code) (num_inside_target num_boats)
          (num_inside_target num_boats * max_attempts_multiplier) 0 []
          nid).1,
       (rejection_loop env.sample_outside
          (accept_outside gp buffer_geometry land_geometry)
          (mk_outside env country_code)
          (num_boats - num_inside_target num_boats)
          ((num_boats - num_inside_target num_boats)
            * max_attempts_multiplier) 0 []
          (rejection_loop env.sample_inside
            (accept_inside gp buffer_geometry land_geometry)
            (mk_inside env country_code) (num_inside_target num_boats)
            (num_inside_target num_boats * max_attempts_multiplier) 0 []
            nid).2.1).1,
       (rejection_loop env.sample_outside
          (accept_outside gp buffer_geometry land_geometry)
          (mk_outside env country_code)
          (num_boats - num_inside_target num_boats)
          ((num_boats - num_inside_target num_boats)
            * max_attempts_multiplier) 0 []
          (rejection_loop env.sample_inside
            (accept_inside gp buffer_geometry land_geometry)
            (mk_inside env country_code) (num_inside_target num_boats)
            (num_inside_target num_boats * max_attempts_multiplier) 0 []
            nid).2.1).2.1) := by
  simp [generate_boats_parts, hcfg, hsb]

/-- The two quota bounds of `generate_boats_parts`. -/
theorem generate_boats_parts_len (gp : Bool) (env : GenEnv)
    (country_code : String) (num_boats : Nat)
    (buffer_geometry land_geometry : Option Geom) (nid : Nat) :
    (generate_boats_parts gp env country_code num_boats buffer_geometry
        land_geometry nid).1.length ≤ num_inside_target num_boats ∧
    (generate_boats_parts gp env country_code num_boats buffer_geometry
        land_geometry nid).2.1.length
      ≤ num_boats - num_inside_target num_boats := by
  cases hcfg : COUNTRY_CONFIG.lookup country_code with
  | none =>
    rw [generate_boats_parts_unknown gp env country_code num_boats
      buffer_geometry land_geometry nid hcfg]
    simp
  | some config =>
    cases hsb : config.sea_boxes.isEmpty with
    | true =>
      rw [generate_boats_parts_noboxes gp env country_code num_boats
        buffer_geometry land_geometry nid config hcfg hsb]
      simp
    | false =>
      rw [generate_boats_parts_main gp env country_code num_boats
        buffer_geometry land_geometry nid config hcfg hsb]
      constructor
      · exact rejection_loop_length_le _ _ _ _ _ _ _ _ (by simp)
      · exact rejection_loop_length_le _ _ _ _ _ _ _ _ (by simp)

/-- Ids allocated by `generate_boats_parts`: the concatenated inside and
outside lists carry exactly the consecutive ids starting at the incoming
allocator value, and the allocator advances by the number of boats
created. -/
theorem generate_boats_parts_ids (gp : Bool) (env : GenEnv)
    (country_code : String) (num_boats : Nat)
    (buffer_geometry land_geometry : Option Geom) (nid : Nat) :
    ((generate_boats_parts gp env country_code num_boats buffer_geometry
        land_geometry nid).1
      ++ (generate_boats_parts gp env country_code num_boats
        buffer_geometry land_geometry nid).2.1).map Boat.id
      = List.range' nid
          ((generate_boats_parts gp env country_code num_boats
              buffer_geometry land_geometry nid).1.length
            + (generate_boats_parts gp env country_code num_boats
              buffer_geometry land_geometry nid).2.1.length) ∧
    (generate_boats_parts gp env country_code num_boats buffer_geometry
        land_geometry nid).2.2
      = nid + ((generate_boats_parts gp env country_code num_boats
            buffer_geometry land_geometry nid).1.length
          + (generate_boats_parts gp env country_code num_boats
            buffer_geometry land_geometry nid).2.1.length) := by
  cases hcfg : COUNTRY_CONFIG.lookup country_code with
  | none =>
    rw [generate_boats_parts_unknown gp env country_code num_boats
      buffer_geometry land_geometry nid hcfg]
    simp
  | some config =>
    cases hsb : config.sea_boxes.isEmpty with
    | true =>
      rw [generate_boats_parts_noboxes gp env country_code num_boats
        buffer_geometry land_geometry nid config hcfg hsb]
      simp
    | false =>
      rw [generate_boats_parts_main gp env country_code num_boats
        buffer_geometry land_geometry nid config hcfg hsb]
      obtain ⟨nb₁, h11, h12, h13, h14⟩ := rejection_loop_spec
        env.sample_inside (accept_inside gp buffer_geometry land_geometry)
        (mk_inside env country_code) (num_inside_target num_boats)
        (fun i j => rfl)
        (num_inside_target num_boats * max_attempts_multiplier) 0 [] nid
      obtain ⟨nb₂, h21, h22, h23, h24⟩ := rejection_loop_spec
        env.sample_outside (accept_outside gp buffer_geometry land_geometry)
        (mk_outside env country_code)
        (num_boats - num_inside_target num_boats) (fun i j => rfl)
        ((num_boats - num_inside_target num_boats)
          * max_attempts_multiplier) 0 []
        (rejection_loop env.sample_inside
          (accept_inside gp buffer_geometry land_geometry)
          (mk_inside env country_code) (num_inside_target num_boats)
          (num_inside_target num_boats * max_attempts_multiplier) 0 []
          nid).2.1
      rw [h11, h21, h13] at *
      simp only [List.nil_append] at *
      constructor
      · rw [List.map_append, h12, h22]
        exact range'_append_one nid nb₁.length nb₂.length
      · rw [h23]
        omega

/-- Provenance of the two parts: every inside boat was built by
`mk_inside`, every outside boat by `mk_outside`. -/
theorem generate_boats_parts_mem (gp : Bool) (env : GenEnv)
    (country_code : String) (num_boats : Nat)
    (buffer_geometry land_geometry : Option Geom) (nid : Nat) :
    (∀ b ∈ (generate_boats_parts gp env country_code num_boats
        buffer_geometry land_geometry nid).1,
      ∃ i j, b = mk_inside env country_code i j) ∧
    (∀ b ∈ (generate_boats_parts gp env country_code num_boats
        buffer_geometry land_geometry nid).2.1,
      ∃ i j, b = mk_outside env country_code i j) := by
  cases hcfg : COUNTRY_CONFIG.lookup country_code with
  | none =>
    rw [generate_boats_parts_unknown gp env country_code num_boats
      buffer_geometry land_geometry nid hcfg]
    simp
  | some config =>
    cases hsb : config.sea_boxes.isEmpty with
    | true =>
      rw [generate_boats_parts_noboxes gp env country_code num_boats
        buffer_geometry land_geometry nid config hcfg hsb]
      simp
    | false =>
      rw [generate_boats_parts_main gp env country_code num_boats
        buffer_geometry land_geometry nid config hcfg hsb]
      obtain ⟨nb₁, h11, h12, h13, h14⟩ := rejection_loop_spec
        env.sample_inside (accept_inside gp buffer_geometry land_geometry)
        (mk_inside env country_code) (num_inside_target num_boats)
        (fun i j => rfl)
        (num_inside_target num_boats * max_attempts_multiplier) 0 [] nid
      obtain ⟨nb₂, h21, h22, h23, h24⟩ := rejection_loop_spec
        env.sample_outside (accept_outside gp buffer_geometry land_geometry)
        (mk_outside env country_code)
        (num_boats - num_inside_target num_boats) (fun i j => rfl)
        ((num_boats - num_inside_target num_boats)
          * max_attempts_multiplier) 0 []
        (rejection_loop env.sample_inside
          (accept_inside gp buffer_geometry land_geometry)
          (mk_inside env country_code) (num_inside_target num_boats)
          (num_inside_target num_boats * max_attempts_multiplier) 0 []
          nid).2.1
      rw [h11, h21]
      simp only [List.nil_append]
      exact ⟨h14, h24⟩

/-- With an invalid (None or empty or engine-less) buffer geometry the
inside acceptance test is constantly false. -/
theorem accept_inside_invalid (gp : Bool)
    (buffer_geometry land_geometry : Option Geom)
    (h : geom_valid gp buffer_geometry = false) :
    ∀ p, accept_inside gp buffer_geometry land_geometry p = false := by
  intro p
  simp [accept_inside, h]

/-- With an invalid buffer geometry the inside loop accepts nothing. -/
theorem generate_boats_parts_buffer_invalid (gp : Bool) (env : GenEnv)
    (country_code : String) (num_boats : Nat)
    (buffer_geometry land_geometry : Option Geom) (nid : Nat)
    (h : geom_valid gp buffer_geometry = false) :
    (generate_boats_parts gp env country_code num_boats buffer_geometry
      land_geometry nid).1 = [] := by
  cases hcfg : COUNTRY_CONFIG.lookup country_code with
  | none =>
    rw [generate_boats_parts_unknown gp env country_code num_boats
      buffer_geometry land_geometry nid hcfg]
  | some config =>
    cases hsb : config.sea_boxes.isEmpty with
    | true =>
      rw [generate_boats_parts_noboxes gp env country_code num_boats
        buffer_geometry land_geometry nid config hcfg hsb]
    | false =>
      rw [generate_boats_parts_main gp env country_code num_boats
        buffer_geometry land_geometry nid config hcfg hsb]
      exact (rejection_loop_none env.sample_inside
        (accept_inside gp buffer_geometry land_geometry)
        (mk_inside env country_code) (num_inside_target num_boats)
        (accept_inside_invalid gp buffer_geometry land_geometry h)
        (num_inside_target num_boats * max_attempts_multiplier) 0 [] nid).1

/-- C1: for every region and every `n`, `generate_boats` splits its quota
as `inside_target = round(n * 0.20)` (= `⌊n/5 + 1/2⌋`, the exact value of
the Python expression) and `outside_target = n - inside_target`; the inside
loop accepts at most `inside_target` boats, the outside loop at most
`outside_target`, and the returned (shuffled) list has at most `n`
elements. -/
theorem claim_C1 (gp : Bool) (env : GenEnv) (country_code : String)
    (num_boats : Nat) (buffer_geometry land_geometry : Option Geom)
    (nid : Nat) (hshuffle : ∀ l, (env.shuffle l).Perm l) :
    num_inside_target num_boats = Nat.floor ((num_boats : ℚ) / 5 + 1 / 2) ∧
    num_inside_target num_boats
      + (num_boats - num_inside_target num_boats) = num_boats ∧
    (generate_boats_parts gp env country_code num_boats buffer_geometry
        land_geometry nid).1.length ≤ num_inside_target num_boats ∧
    (generate_boats_parts gp env country_code num_boats buffer_geometry
        land_geometry nid).2.1.length
      ≤ num_boats - num_inside_target num_boats ∧
    (generate_boats gp env country_code num_boats buffer_geometry
        land_geometry nid).1.length ≤ num_boats := by
  obtain ⟨hin, hout⟩ := generate_boats_parts_len gp env country_code
    num_boats buffer_geometry land_geometry nid
  refine ⟨?_, ?_, hin, hout, ?_⟩
  · show (2 * num_boats + 5) / 10 = _
    have h : ((num_boats : ℚ) / 5 + 1 / 2)
        = ((2 * num_boats + 5 : ℕ) : ℚ) / ((10 : ℕ) : ℚ) := by
      push_cast; ring
    rw [h, Nat.floor_div_nat, Nat.floor_natCast]
  · show num_inside_target num_boats
      + (num_boats - num_inside_target num_boats) = num_boats
    unfold num_inside_target
    omega
  · show (env.shuffle _).length ≤ num_boats
    rw [(hshuffle _).length_eq, List.length_append]
    have : num_inside_target num_boats
        + (num_boats - num_inside_target num_boats) = num_boats := by
      unfold num_inside_target; omega
    omega

/-- Witness for C1 at `gp = true`, the deterministic test oracle, region
`"uk"`, `n = 50`. -/
theorem claim_C1_witness :
    (∀ l, (testGenEnv.shuffle l).Perm l) ∧
    (generate_boats true testGenEnv "uk" 50 (some latOneGeom)
        (some geomNothing) 301).1.length ≤ 50 :=
  ⟨fun l => List.Perm.refl l,
   (claim_C1 true testGenEnv "uk" 50 (some latOneGeom) (some geomNothing)
     301 (fun l => List.Perm.refl l)).2.2.2.2⟩

/-- C2 as stated is false: the attempt-budget multiplier of
`generate_boats` is 350 (src/app.py line 252), not 500; at `n = 50` the
inside budget is `10 * 350 = 3500`, not `10 * 500 = 5000`. -/
theorem claim_C2_counterexample :
    num_inside_target 50 * max_attempts_multiplier
      ≠ num_inside_target 50 * 500 := by decide

/-- C2 (amended: the multiplier is 350): each rejection-sampling loop of
`generate_boats` runs with attempt budget `target * 350` and terminates
exactly when its target count is accepted or that budget is exhausted;
the final attempt counter never exceeds the budget. -/
theorem claim_C2 (sample : Nat → Pt) (accept : Pt → Bool)
    (mk : Nat → Nat → Boat) (target nid : Nat) :
    max_attempts_multiplier = 350 ∧
    (rejection_loop sample accept mk target
        (target * max_attempts_multiplier) 0 [] nid).2.2
      ≤ target * max_attempts_multiplier ∧
    ((rejection_loop sample accept mk target
        (target * max_attempts_multiplier) 0 [] nid).1.length = target ∨
     (rejection_loop sample accept mk target
        (target * max_attempts_multiplier) 0 [] nid).2.2
      = target * max_attempts_multiplier) := by
  have h := rejection_loop_budget sample accept mk target
    (target * max_attempts_multiplier) 0 [] nid (by simp)
  exact ⟨rfl, by simpa using h.1, by simpa using h.2⟩

/-- C4: both classifiers return false unconditionally for a `None`
geometry, for an empty-sentinel geometry, and when the geometry capability
(geopandas) is unavailable; an exception from the containment engine is
caught and yields false.  The classifiers are total functions: no
exception reaches the caller. -/
theorem claim_C4 (gp : Bool) (p : Pt) :
    is_in_zone gp p none = false ∧
    is_on_land gp p none = false ∧
    (∀ g : Geom, g.is_empty = true →
      is_in_zone gp p (some g) = false ∧ is_on_land gp p (some g) = false) ∧
    (∀ g : Option Geom,
      is_in_zone false p g = false ∧ is_on_land false p g = false) ∧
    (∀ (g : Geom) (msg : String), g.contains p = Except.error msg →
      is_in_zone gp p (some g) = false ∧
      is_on_land gp p (some g) = false) := by
  refine ⟨?_, ?_, ?_, ?_, ?_⟩
  · cases gp <;> simp [is_in_zone]
  · cases gp <;> simp [is_on_land]
  · intro g hg
    cases gp <;> simp [is_in_zone, is_on_land, hg]
  · intro g
    cases g <;> simp [is_in_zone, is_on_land]
  · intro g msg hraise
    cases gp <;> cases hemp : g.is_empty <;>
      simp [is_in_zone, is_on_land, hemp, hraise]

/-- Witness for C4 at the empty sentinel and a raising engine. -/
theorem claim_C4_witness :
    EMPTY_GEOMETRY.is_empty = true ∧
    geomRaising.contains ⟨0, 0⟩ = Except.error "GEOSException" ∧
    is_in_zone true ⟨0, 0⟩ (some EMPTY_GEOMETRY) = false ∧
    is_on_land true ⟨0, 0⟩ (some geomRaising) = false :=
  ⟨rfl, rfl,
   ((claim_C4 true ⟨0, 0⟩).2.2.1 EMPTY_GEOMETRY rfl).1,
   ((claim_C4 true ⟨0, 0⟩).2.2.2.2 geomRaising "GEOSException" rfl).2⟩

/-- `get_buffer_geometry` only touches the buffer-geometry cache: boats and
history are untouched. -/
theorem get_buffer_geometry_frame (env : LoaderEnv) (st : AppState)
    (country_code : String) :
    (get_buffer_geometry env st country_code).2.boats = st.boats ∧
    (get_buffer_geometry env st country_code).2.history = st.history := by
  unfold get_buffer_geometry
  by_cases h1 : env.geopandas = false
  · simp [h1]
  · by_cases h2 : (COUNTRY_CONFIG.lookup country_code).isNone
    · simp [h1, h2]
    · cases hl : st.buffer_geometries.lookup country_code with
      | none => simp [h1, h2, hl]
      | some g => simp [h1, h2, hl]

/-- Observable effect of one `toggle_valve` call on a boat that is present:
the reply carries the new status, the store becomes the flipped store, and
a history record is appended exactly when the new status is open. -/
theorem toggle_valve_eq (env : LoaderEnv) (now : Nat) (st : AppState)
    (boat_id : Nat) (boats' : List (String × List Boat)) (c : String)
    (b' : Boat)
    (hfound : toggle_in_store st.boats boat_id = (boats', some (c, b'))) :
    ∃ st', toggle_valve env now st boat_id
        = (some (boat_id, b'.valveOpen), st') ∧
      st'.boats = boats' ∧
      (b'.valveOpen = true → ∃ e, st'.history = st.history ++ [e]) ∧
      (b'.valveOpen = false → st'.history = st.history) := by
  cases hb : b'.valveOpen
  · refine ⟨{ st with boats := boats' }, ?_, rfl, ?_, ?_⟩
    · simp only [toggle_valve, hfound, hb, Bool.false_eq_true, if_neg,
        if_false]
    · intro h; simp [hb] at h
    · intro _; rfl
  · obtain ⟨hfb, hfh⟩ := get_buffer_geometry_frame env
      { st with boats := boats' } c
    refine ⟨(toggle_valve env now st boat_id).2, ?_, ?_, ?_, ?_⟩
    · have h1 : (toggle_valve env now st boat_id).1
          = some (boat_id, b'.valveOpen) := by
        simp only [toggle_valve, hfound, hb, if_pos]
      calc toggle_valve env now st boat_id
          = ((toggle_valve env now st boat_id).1,
             (toggle_valve env now st boat_id).2) := rfl
        _ = (some (boat_id, b'.valveOpen),
             (toggle_valve env now st boat_id).2) := by rw [h1]
        _ = (some (boat_id, true),
             (toggle_valve env now st boat_id).2) := by rw [hb]
    · simp only [toggle_valve, hfound, hb, if_pos]
      exact hfb
    · intro _
      simp only [toggle_valve, hfound, hb, if_pos]
      rw [hfh]
      exact ⟨_, rfl⟩
    · intro h; simp [hb] at h

/-- C3: for a vessel present in the store, toggling twice restores the
whole store (hence the vessel's original `valve_open` state) and appends
exactly one history record across the two calls; a single toggle appends a
record if and only if it transitions the valve from closed to open
(`b'` is the flipped boat, so `b'.valveOpen` is the new status after the
first toggle). -/
theorem claim_C3 (env : LoaderEnv) (now now' : Nat) (st : AppState)
    (boat_id : Nat) (boats' : List (String × List Boat)) (c : String)
    (b' : Boat)
    (hfound : toggle_in_store st.boats boat_id = (boats', some (c, b'))) :
    (toggle_valve env now st boat_id).1 = some (boat_id, b'.valveOpen) ∧
    (toggle_valve env now'
        (toggle_valve env now st boat_id).2 boat_id).2.boats = st.boats ∧
    (∃ e, (toggle_valve env now'
        (toggle_valve env now st boat_id).2 boat_id).2.history
      = st.history ++ [e]) ∧
    (b'.valveOpen = true →
      ∃ e, (toggle_valve env now st boat_id).2.history
        = st.history ++ [e]) ∧
    (b'.valveOpen = false →
      (toggle_valve env now st boat_id).2.history = st.history) := by
  obtain ⟨st1, he1, hb1, hth1, hfh1⟩ :=
    toggle_valve_eq env now st boat_id boats' c b' hfound
  have hst1 : (toggle_valve env now st boat_id).2 = st1 := by rw [he1]
  have hfound2 : toggle_in_store st1.boats boat_id
      = (st.boats, some (c, { b' with valveOpen := !b'.valveOpen })) := by
    rw [hb1]
    exact toggle_in_store_twice boat_id st.boats boats' c b' hfound
  obtain ⟨st2, he2, hb2, hth2, hfh2⟩ :=
    toggle_valve_eq env now' st1 boat_id st.boats c
      { b' with valveOpen := !b'.valveOpen } hfound2
  have hst2 : (toggle_valve env now' st1 boat_id).2 = st2 := by rw [he2]
  refine ⟨by rw [he1], ?_, ?_, by rw [hst1]; exact hth1,
    by rw [hst1]; exact hfh1⟩
  · rw [hst1, hst2]
    exact hb2
  · rw [hst1, hst2]
    cases hb : b'.valveOpen
    · obtain ⟨e, he⟩ := hth2 (by simp [hb])
      rw [he, hfh1 hb]
      exact ⟨e, rfl⟩
    · have h2 : st2.history = st1.history := hfh2 (by simp [hb])
      obtain ⟨e, he⟩ := hth1 hb
      rw [h2, he]
      exact ⟨e, rfl⟩

/-- Witness for C3: a one-boat store; the boat starts closed, so the first
toggle opens it. -/
theorem claim_C3_witness :
    toggle_in_store
        [("uk", [{ id := 301, name := "Sea Eagle 10", lat := 0, lng := 0,
                   valveOpen := false, country := "uk" }])] 301
      = ([("uk", [{ id := 301, name := "Sea Eagle 10", lat := 0, lng := 0,
                    valveOpen := true, country := "uk" }])],
         some ("uk", { id := 301, name := "Sea Eagle 10", lat := 0,
                       lng := 0, valveOpen := true, country := "uk" })) ∧
    (toggle_valve testLoaderEnv 1
        { initialState with
          boats := [("uk", [{ id := 301, name := "Sea Eagle 10", lat := 0,
                              lng := 0, valveOpen := false,
                              country := "uk" }])] } 301).1
      = some (301, true) :=
  ⟨rfl,
   (claim_C3 testLoaderEnv 1 2
     { initialState with
       boats := [("uk", [{ id := 301, name := "Sea Eagle 10", lat := 0,
                           lng := 0, valveOpen := false,
                           country := "uk" }])] } 301
     [("uk", [{ id := 301, name := "Sea Eagle 10", lat := 0, lng := 0,
                valveOpen := true, country := "uk" }])] "uk"
     { id := 301, name := "Sea Eagle 10", lat := 0, lng := 0,
       valveOpen := true, country := "uk" } rfl).1⟩

/-- C5: for each region and each kind (buffer, land), every load failure
(missing source file, exception while reading/repairing/unioning, no valid
sub-polygons) makes the cache getter store and return the empty sentinel —
the getter is a total function, so no exception ever reaches the caller —
and once a slot is cached, any subsequent call (under any loader with the
same availability flag, i.e. with no further I/O) returns the cached value
and leaves the state unchanged. -/
theorem claim_C5 (env env' : LoaderEnv) (st : AppState)
    (country_code : String) (hgp : env.geopandas = true)
    (hknown : (COUNTRY_CONFIG.lookup country_code).isNone = false)
    (hgp' : env'.geopandas = env.geopandas) :
    (∀ g, st.buffer_geometries.lookup country_code = some g →
      get_buffer_geometry env st country_code = (g, st)) ∧
    (∀ g, st.land_geometries.lookup country_code = some g →
      get_land_geometry env st country_code = (g, st)) ∧
    (st.buffer_geometries.lookup country_code = none →
      (env.load_buffer country_code = LoadOutcome.missingFile ∨
       (∃ msg, env.load_buffer country_code = LoadOutcome.raised msg) ∨
       env.load_buffer country_code = LoadOutcome.noValidGeoms) →
      get_buffer_geometry env st country_code
        = (EMPTY_GEOMETRY,
           { st with buffer_geometries :=
              (country_code, EMPTY_GEOMETRY) :: st.buffer_geometries })) ∧
    (st.land_geometries.lookup country_code = none →
      (env.load_land country_code = LoadOutcome.missingFile ∨
       (∃ msg, env.load_land country_code = LoadOutcome.raised msg) ∨
       env.load_land country_code = LoadOutcome.noValidGeoms) →
      get_land_geometry env st country_code
        = (EMPTY_GEOMETRY,
           { st with land_geometries :=
              (country_code, EMPTY_GEOMETRY) :: st.land_geometries })) ∧
    get_buffer_geometry env'
        (get_buffer_geometry env st country_code).2 country_code
      = get_buffer_geometry env st country_code ∧
    get_land_geometry env'
        (get_land_geometry env st country_code).2 country_code
      = get_land_geometry env st country_code := by
  have hbc : ∀ g, st.buffer_geometries.lookup country_code = some g →
      get_buffer_geometry env st country_code = (g, st) := by
    intro g hg
    simp [get_buffer_geometry, hgp, hknown, hg]
  have hlc : ∀ g, st.land_geometries.lookup country_code = some g →
      get_land_geometry env st country_code = (g, st) := by
    intro g hg
    simp [get_land_geometry, hgp, hknown, hg]
  refine ⟨hbc, hlc, ?_, ?_, ?_, ?_⟩
  · intro hnone hfail
    have hload : load_result (env.load_buffer country_code)
        = EMPTY_GEOMETRY := by
      rcases hfail with h | ⟨msg, h⟩ | h <;> rw [h] <;> rfl
    simp [get_buffer_geometry, hgp, hknown, hnone, hload]
  · intro hnone hfail
    have hload : load_result (env.load_land country_code)
        = EMPTY_GEOMETRY := by
      rcases hfail with h | ⟨msg, h⟩ | h <;> rw [h] <;> rfl
    simp [get_land_geometry, hgp, hknown, hnone, hload]
  · cases hl : st.buffer_geometries.lookup country_code with
    | some g =>
      rw [hbc g hl]
      simp [get_buffer_geometry, hgp', hgp, hknown, hl]
    | none =>
      have h1 : get_buffer_geometry env st country_code
          = (load_result (env.load_buffer country_code),
             { st with buffer_geometries :=
                (country_code, load_result (env.load_buffer country_code))
                  :: st.buffer_geometries }) := by
        simp [get_buffer_geometry, hgp, hknown, hl]
      rw [h1]
      have h2 : List.lookup country_code
          ((country_code, load_result (env.load_buffer country_code))
            :: st.buffer_geometries)
          = some (load_result (env.load_buffer country_code)) := by
        simp [List.lookup]
      simp [get_buffer_geometry, hgp', hgp, hknown, h2]
  · cases hl : st.land_geometries.lookup country_code with
    | some g =>
      rw [hlc g hl]
      simp [get_land_geometry, hgp', hgp, hknown, hl]
    | none =>
      have h1 : get_land_geometry env st country_code
          = (load_result (env.load_land country_code),
             { st with land_geometries :=
                (country_code, load_result (env.load_land country_code))
                  :: st.land_geometries }) := by
        simp [get_land_geometry, hgp, hknown, hl]
      rw [h1]
      have h2 : List.lookup country_code
          ((country_code, load_result (env.load_land country_code))
            :: st.land_geometries)
          = some (load_result (env.load_land country_code)) := by
        simp [List.lookup]
      simp [get_land_geometry, hgp', hgp, hknown, h2]

/-- Witness for C5 at region `"uk"`, the fresh state, and the concrete
loader whose buffer source has no valid sub-polygons. -/
theorem claim_C5_witness :
    testLoaderEnv.geopandas = true ∧
    (COUNTRY_CONFIG.lookup "uk").isNone = false ∧
    initialState.buffer_geometries.lookup "uk" = none ∧
    testLoaderEnv.load_buffer "uk" = LoadOutcome.noValidGeoms ∧
    get_buffer_geometry testLoaderEnv initialState "uk"
      = (EMPTY_GEOMETRY,
         { initialState with buffer_geometries :=
            [("uk", EMPTY_GEOMETRY)] }) :=
  ⟨rfl, rfl, rfl, rfl,
   (claim_C5 testLoaderEnv testLoaderEnv initialState "uk" rfl rfl
     rfl).2.2.1 rfl (Or.inr (Or.inr rfl))⟩

/-- C8: `get_history` returns all appended records (a permutation: nothing
dropped, duplicated or mutated), sorted descending by timestamp, with
records of equal timestamp kept in insertion order (stability as a filter
identity per timestamp). -/
theorem claim_C8 (st : AppState) :
    (get_history st).Pairwise (fun a b => b.timestamp ≤ a.timestamp) ∧
    (get_history st).Perm st.history ∧
    (∀ t, (get_history st).filter (fun e => e.timestamp == t)
      = st.history.filter (fun e => e.timestamp == t)) :=
  ⟨sorted_desc_pairwise st.history, sorted_desc_perm st.history,
   fun t => sorted_desc_filter t st.history⟩

/-- A concrete deterministic randomness oracle for the first_app
generator. -/
def testFAEnv : FAEnv :=
  { sample := fun _ => ⟨0, 0⟩
    name_idx := fun i => i
    suffix_idx := fun i => i
    valve := fun _ => true }

/-- The first request against an empty store triggers generation. -/
theorem fa_trace_step_fresh (fenv : FAEnv) (k : Nat) :
    fa_get_boats_trace fenv (k + 1) ([], [])
      = fa_get_boats_trace fenv k
          (fa_generate_boats fenv, [] ++ fa_generate_boats fenv) := rfl

/-- Over any first_app request trace (fresh start or post-startup start),
the ghost log of created vessels keeps pairwise-distinct ids. -/
theorem fa_created_nodup (fenv : FAEnv) (k : Nat) :
    ((fa_get_boats_trace fenv k ([], [])).2.map FABoat.id).Nodup ∧
    ((fa_get_boats_trace fenv k
        (fa_generate_boats fenv, fa_generate_boats fenv)).2.map
      FABoat.id).Nodup := by
  have hgen_ne : fa_generate_boats fenv ≠ [] := by
    intro h
    have hl := (fa_generate_boats_spec fenv).1
    rw [h] at hl
    simp [FA_NUM_BOATS] at hl
  have hfa_nodup : ((fa_generate_boats fenv).map FABoat.id).Nodup := by
    rw [(fa_generate_boats_spec fenv).2]
    exact List.nodup_range' _ _
  constructor
  · cases k with
    | zero =>
      show (([] : List FABoat).map FABoat.id).Nodup
      exact List.nodup_nil
    | succ k =>
      rw [fa_trace_step_fresh fenv k, List.nil_append,
        fa_trace_fixed fenv k (fa_generate_boats fenv)
          (fa_generate_boats fenv) hgen_ne]
      exact hfa_nodup
  · rw [fa_trace_fixed fenv k (fa_generate_boats fenv)
      (fa_generate_boats fenv) hgen_ne]
    exact hfa_nodup

/-- C6: vessel ids.  For `src/app.py`: one `generate_boats` call allocates
exactly the consecutive ids starting at the incoming `NEXT_BOAT_ID`
(strictly increasing in creation order, so no id is ever reused), advances
the global allocator by the number of boats created, the shuffled return
value carries pairwise-distinct ids, and every id of any later call (for
any region and any arguments) is strictly greater than every id of this
call.  For `src/first_app/app.py`: one `generate_boats()` call creates the
100 distinct ids 201..300, and since `get_boats` regenerates only when the
store is empty while generation always fills the store, the ghost log of
all vessels ever created over any request trace (started either fresh or
after the startup generation) keeps pairwise-distinct ids. -/
theorem claim_C6 (gp gp₂ : Bool) (env env₂ : GenEnv)
    (country_code country_code₂ : String) (num_boats num_boats₂ : Nat)
    (buf land buf₂ land₂ : Option Geom) (nid : Nat) (fenv : FAEnv)
    (k : Nat) (hsh : ∀ l, (env.shuffle l).Perm l) :
    ((generate_boats_parts gp env country_code num_boats buf land nid).1
      ++ (generate_boats_parts gp env country_code num_boats buf land
        nid).2.1).map Boat.id
      = List.range' nid
          ((generate_boats_parts gp env country_code num_boats buf land
            nid).1.length
           + (generate_boats_parts gp env country_code num_boats buf land
            nid).2.1.length) ∧
    (generate_boats_parts gp env country_code num_boats buf land nid).2.2
      = nid + ((generate_boats_parts gp env country_code num_boats buf land
            nid).1.length
          + (generate_boats_parts gp env country_code num_boats buf land
            nid).2.1.length) ∧
    (((generate_boats_parts gp env country_code num_boats buf land nid).1
      ++ (generate_boats_parts gp env country_code num_boats buf land
        nid).2.1).map Boat.id).Pairwise (· < ·) ∧
    ((generate_boats gp env country_code num_boats buf land nid).1.map
      Boat.id).Nodup ∧
    (∀ b ∈ (generate_boats_parts gp env country_code num_boats buf land
          nid).1
        ++ (generate_boats_parts gp env country_code num_boats buf land
          nid).2.1,
     ∀ b₂ ∈ (generate_boats_parts gp₂ env₂ country_code₂ num_boats₂ buf₂
          land₂
          (generate_boats_parts gp env country_code num_boats buf land
            nid).2.2).1
        ++ (generate_boats_parts gp₂ env₂ country_code₂ num_boats₂ buf₂
          land₂
          (generate_boats_parts gp env country_code num_boats buf land
            nid).2.2).2.1,
     b.id < b₂.id) ∧
    (fa_generate_boats fenv).map FABoat.id
      = List.range' 201 FA_NUM_BOATS ∧
    ((fa_get_boats_trace fenv k ([], [])).2.map FABoat.id).Nodup ∧
    ((fa_get_boats_trace fenv k
        (fa_generate_boats fenv, fa_generate_boats fenv)).2.map
      FABoat.id).Nodup := by
  obtain ⟨hids, hnid⟩ := generate_boats_parts_ids gp env country_code
    num_boats buf land nid
  refine ⟨hids, hnid, ?_, ?_, ?_, (fa_generate_boats_spec fenv).2,
    (fa_created_nodup fenv k).1, (fa_created_nodup fenv k).2⟩
  · rw [hids]
    exact List.pairwise_lt_range' _ _
  · have hperm : ((generate_boats gp env country_code num_boats buf land
        nid).1.map Boat.id).Perm
        (((generate_boats_parts gp env country_code num_boats buf land
          nid).1
         ++ (generate_boats_parts gp env country_code num_boats buf land
          nid).2.1).map Boat.id) :=
      (hsh _).map Boat.id
    rw [hids] at hperm
    exact hperm.nodup_iff.mpr (List.nodup_range' _ _)
  · intro b hb b₂ hb₂
    obtain ⟨hids₂, _⟩ := generate_boats_parts_ids gp₂ env₂ country_code₂
      num_boats₂ buf₂ land₂
      (generate_boats_parts gp env country_code num_boats buf land nid).2.2
    have h1 : b.id ∈ List.range' nid
        ((generate_boats_parts gp env country_code num_boats buf land
          nid).1.length
         + (generate_boats_parts gp env country_code num_boats buf land
          nid).2.1.length) := by
      rw [← hids]
      exact List.mem_map_of_mem Boat.id hb
    have h2 : b₂.id ∈ List.range'
        (generate_boats_parts gp env country_code num_boats buf land
          nid).2.2
        ((generate_boats_parts gp₂ env₂ country_code₂ num_boats₂ buf₂ land₂
          (generate_boats_parts gp env country_code num_boats buf land
            nid).2.2).1.length
         + (generate_boats_parts gp₂ env₂ country_code₂ num_boats₂ buf₂
          land₂
          (generate_boats_parts gp env country_code num_boats buf land
            nid).2.2).2.1.length) := by
      rw [← hids₂]
      exact List.mem_map_of_mem Boat.id hb₂
    have h3 := List.mem_range'_1.mp h1
    have h4 := List.mem_range'_1.mp h2
    omega

/-- Witness for C6 at the deterministic oracles, two sequential calls for
`"uk"` then `"croatia"`, and a 3-request first_app trace. -/
theorem claim_C6_witness :
    (∀ l, (testGenEnv.shuffle l).Perm l) ∧
    (fa_generate_boats testFAEnv).map FABoat.id
      = List.range' 201 FA_NUM_BOATS ∧
    ((fa_get_boats_trace testFAEnv 3 ([], [])).2.map FABoat.id).Nodup :=
  ⟨fun l => List.Perm.refl l,
   (claim_C6 true true testGenEnv testGenEnv "uk" "croatia" 50 50
     (some latOneGeom) (some geomNothing) (some latOneGeom)
     (some geomNothing) 301 testFAEnv 3
     (fun l => List.Perm.refl l)).2.2.2.2.2.1,
   (claim_C6 true true testGenEnv testGenEnv "uk" "croatia" 50 50
     (some latOneGeom) (some geomNothing) (some latOneGeom)
     (some geomNothing) 301 testFAEnv 3
     (fun l => List.Perm.refl l)).2.2.2.2.2.2.1⟩

/-- C9: when the buffer geometry passed to `generate_boats` is `None` or
the empty sentinel, the inside acceptance condition can never hold, so the
inside loop accepts zero boats and the returned (shuffled) list consists
solely of outside-loop boats, of which there are at most
`n - round(n * 0.20)`. -/
theorem claim_C9 (gp : Bool) (env : GenEnv) (country_code : String)
    (num_boats : Nat) (buffer_geometry land_geometry : Option Geom)
    (nid : Nat)
    (hbuf : buffer_geometry = none ∨
      ∃ g, buffer_geometry = some g ∧ g.is_empty = true)
    (hsh : ∀ l, (env.shuffle l).Perm l) :
    (generate_boats_parts gp env country_code num_boats buffer_geometry
      land_geometry nid).1 = [] ∧
    (∀ b ∈ (generate_boats gp env country_code num_boats buffer_geometry
        land_geometry nid).1,
      b ∈ (generate_boats_parts gp env country_code num_boats
        buffer_geometry land_geometry nid).2.1) ∧
    (generate_boats gp env country_code num_boats buffer_geometry
        land_geometry nid).1.length
      ≤ num_boats - num_inside_target num_boats := by
  have hvalid : geom_valid gp buffer_geometry = false := by
    rcases hbuf with h | ⟨g, h, hemp⟩
    · rw [h]; simp [geom_valid]
    · rw [h]; simp [geom_valid, hemp]
  have hins := generate_boats_parts_buffer_invalid gp env country_code
    num_boats buffer_geometry land_geometry nid hvalid
  refine ⟨hins, ?_, ?_⟩
  · intro b hb
    have hb' : b ∈ env.shuffle
        ((generate_boats_parts gp env country_code num_boats
          buffer_geometry land_geometry nid).1
         ++ (generate_boats_parts gp env country_code num_boats
          buffer_geometry land_geometry nid).2.1) := hb
    have hb2 := (hsh _).mem_iff.mp hb'
    rw [hins] at hb2
    simpa using hb2
  · have hlen : (generate_boats gp env country_code num_boats
        buffer_geometry land_geometry nid).1.length
        = ((generate_boats_parts gp env country_code num_boats
            buffer_geometry land_geometry nid).1
           ++ (generate_boats_parts gp env country_code num_boats
            buffer_geometry land_geometry nid).2.1).length :=
      (hsh _).length_eq
    rw [hlen, hins]
    simpa using (generate_boats_parts_len gp env country_code num_boats
      buffer_geometry land_geometry nid).2

/-- Witness for C9 at the empty-sentinel buffer. -/
theorem claim_C9_witness :
    (some EMPTY_GEOMETRY = (none : Option Geom) ∨
      ∃ g, (some EMPTY_GEOMETRY : Option Geom) = some g ∧
        g.is_empty = true) ∧
    (∀ l, (testGenEnv.shuffle l).Perm l) ∧
    (generate_boats_parts true testGenEnv "uk" 50 (some EMPTY_GEOMETRY)
      (some geomNothing) 301).1 = [] :=
  ⟨Or.inr ⟨EMPTY_GEOMETRY, rfl, rfl⟩, fun l => List.Perm.refl l,
   (claim_C9 true testGenEnv "uk" 50 (some EMPTY_GEOMETRY)
     (some geomNothing) 301 (Or.inr ⟨EMPTY_GEOMETRY, rfl, rfl⟩)
     (fun l => List.Perm.refl l)).1⟩

/-- C10: a boat in the list returned by `generate_boats` was accepted by
the inside loop if and only if its name ends with `"(InZone)"`; outside
boats end in the decimal digits of their random number suffix, so the
inside/outside category is recoverable from the name although the list
order is shuffled. -/
theorem claim_C10 (gp : Bool) (env : GenEnv) (country_code : String)
    (num_boats : Nat) (buffer_geometry land_geometry : Option Geom)
    (nid : Nat) (hsh : ∀ l, (env.shuffle l).Perm l) :
    ∀ b ∈ (generate_boats gp env country_code num_boats buffer_geometry
      land_geometry nid).1,
      (b ∈ (generate_boats_parts gp env country_code num_boats
        buffer_geometry land_geometry nid).1
       ↔ strEndsWith b.name "(InZone)" = true) := by
  intro b hb
  obtain ⟨hmemIn, hmemOut⟩ := generate_boats_parts_mem gp env country_code
    num_boats buffer_geometry land_geometry nid
  have hb' : b ∈ env.shuffle
      ((generate_boats_parts gp env country_code num_boats buffer_geometry
        land_geometry nid).1
       ++ (generate_boats_parts gp env country_code num_boats
        buffer_geometry land_geometry nid).2.1) := hb
  have hb2 := (hsh _).mem_iff.mp hb'
  constructor
  · intro hin
    obtain ⟨i, j, hbeq⟩ := hmemIn b hin
    rw [hbeq]
    exact strEndsWith_inZone
      (mk_boat_name (env.name_idx_inside j) (env.name_num_inside j))
  · intro hend
    rcases List.mem_append.mp hb2 with hin | hout
    · exact hin
    · exfalso
      obtain ⟨i, j, hbeq⟩ := hmemOut b hout
      rw [hbeq] at hend
      have hend' : strEndsWith
          (mk_boat_name (env.name_idx_outside j) (env.name_num_outside j))
          "(InZone)" = true := hend
      rw [mk_boat_name_not_inZone (env.name_idx_outside j)
        (env.name_num_outside j)] at hend'
      exact Bool.noConfusion hend'

/-- Witness for C10 at the deterministic oracle: the inside loop draws
latitude-1 points (contained in `latOneGeom`), the outside loop
latitude-0 points. -/
theorem claim_C10_witness :
    (∀ l, (testGenEnv.shuffle l).Perm l) ∧
    (∀ b ∈ (generate_boats true testGenEnv "uk" 5 (some latOneGeom)
      (some geomNothing) 301).1,
      (b ∈ (generate_boats_parts true testGenEnv "uk" 5 (some latOneGeom)
        (some geomNothing) 301).1
       ↔ strEndsWith b.name "(InZone)" = true)) :=
  ⟨fun l => List.Perm.refl l,
   claim_C10 true testGenEnv "uk" 5 (some latOneGeom) (some geomNothing)
     301 (fun l => List.Perm.refl l)⟩

/-- `get_land_geometry` only touches the land-geometry cache: boats and
history are untouched. -/
theorem get_land_geometry_frame (env : LoaderEnv) (st : AppState)
    (country_code : String) :
    (get_land_geometry env st country_code).2.boats = st.boats ∧
    (get_land_geometry env st country_code).2.history = st.history := by
  unfold get_land_geometry
  by_cases h1 : env.geopandas = false
  · simp [h1]
  · by_cases h2 : (COUNTRY_CONFIG.lookup country_code).isNone
    · simp [h1, h2]
    · cases hl : st.land_geometries.lookup country_code with
      | none => simp [h1, h2, hl]
      | some g => simp [h1, h2, hl]

/-- Association-list self hit. -/
theorem lookup_cons_self {β : Type} (a : String) (b : β)
    (l : List (String × β)) :
    List.lookup a ((a, b) :: l) = some b := by
  simp [List.lookup]

/-- C7 as stated is false on the code: with a region whose backend buffer
geometry loads as the empty sentinel while the land geometry is valid,
`get_map_data` does not return land-check-distributed vessels — it skips
boat generation entirely and returns an empty boat list — and its errors
list, here exactly the skip warning, does not mention the buffer at all. -/
theorem claim_C7_counterexample :
    (get_buffer_geometry cexMapEnv.loader initialState "uk").1.is_empty
      = true ∧
    (get_land_geometry cexMapEnv.loader
        (get_buffer_geometry cexMapEnv.loader initialState "uk").2
        "uk").1.is_empty = false ∧
    respIsOk (get_map_data cexMapEnv initialState "uk").1 = true ∧
    respBoats (get_map_data cexMapEnv initialState "uk").1 = [] ∧
    respErrors (get_map_data cexMapEnv initialState "uk").1
      = some [skip_warning "uk"] ∧
    strMentions (skip_warning "uk") "buffer" = false := by
  refine ⟨rfl, rfl, ?_, ?_, ?_, by decide⟩ <;> decide

/-- C7 (amended to the code's actual behaviour): for a known region whose
backend buffer geometry is the empty sentinel while the land geometry is
valid, a first `get_map_data` request does not invoke the generator at
all — it stores and returns an empty vessel list — and its errors list is
non-null, containing the generic skip warning about missing/invalid
backend geometry (which does not name the buffer specifically).
`generate_boats` itself, called directly with an empty buffer, distributes
by the land check alone (claim C9). -/
theorem claim_C7 (env : MapEnv) (st : AppState) (country : String)
    (config : CountryConfig) (hgp : env.loader.geopandas = true)
    (hcfg : COUNTRY_CONFIG.lookup (str_lower country) = some config)
    (hfresh : st.boats.lookup (str_lower country) = none)
    (hbufempty :
      (get_buffer_geometry env.loader st (str_lower country)).1.is_empty
        = true)
    (_hlandvalid :
      (get_land_geometry env.loader
        (get_buffer_geometry env.loader st (str_lower country)).2
        (str_lower country)).1.is_empty = false) :
    respIsOk (get_map_data env st country).1 = true ∧
    respBoats (get_map_data env st country).1 = [] ∧
    (∃ es, respErrors (get_map_data env st country).1 = some es ∧
      skip_warning (str_lower country) ∈ es) := by
  have hb1 := (get_buffer_geometry_frame env.loader st
    (str_lower country)).1
  have hb2 := (get_land_geometry_frame env.loader
    (get_buffer_geometry env.loader st (str_lower country)).2
    (str_lower country)).1
  have hlookup : (get_land_geometry env.loader
      (get_buffer_geometry env.loader st (str_lower country)).2
      (str_lower country)).2.boats.lookup (str_lower country) = none := by
    rw [hb2, hb1]; exact hfresh
  have hne : ((display_errors "Land"
        (env.display_land (str_lower country))).2
      ++ (display_errors "Buffer"
        (env.display_buffer (str_lower country))).2
      ++ [skip_warning (str_lower country)]).isEmpty = false := by
    cases h : ((display_errors "Land"
        (env.display_land (str_lower country))).2
      ++ (display_errors "Buffer"
        (env.display_buffer (str_lower country))).2
      ++ [skip_warning (str_lower country)]) with
    | nil => simp at h
    | cons a l => rfl
  refine ⟨?_, ?_, ?_⟩
  · simp only [get_map_data, hgp, Bool.true_eq_false, if_false, hcfg,
      hlookup, hbufempty, Bool.not_true, Bool.false_and,
      Bool.false_eq_true, respIsOk]
  · simp only [get_map_data, hgp, Bool.true_eq_false, if_false, hcfg,
      hlookup, hbufempty, Bool.not_true, Bool.false_and,
      Bool.false_eq_true, if_false, respBoats, lookup_cons_self,
      Option.getD_some]
  · refine ⟨(display_errors "Land"
        (env.display_land (str_lower country))).2
      ++ (display_errors "Buffer"
        (env.display_buffer (str_lower country))).2
      ++ [skip_warning (str_lower country)], ?_, by simp⟩
    simp only [get_map_data, hgp, Bool.true_eq_false, if_false, hcfg,
      hlookup, hbufempty, Bool.not_true, Bool.false_and,
      Bool.false_eq_true, respErrors, hne]

/-- Witness for the amended C7 at the concrete counterexample
environment. -/
theorem claim_C7_witness :
    cexMapEnv.loader.geopandas = true ∧
    initialState.boats.lookup (str_lower "uk") = none ∧
    (get_buffer_geometry cexMapEnv.loader initialState
      (str_lower "uk")).1.is_empty = true ∧
    respBoats (get_map_data cexMapEnv initialState "uk").1 = [] :=
  ⟨rfl, rfl, by decide,
   (claim_C7 cexMapEnv initialState "uk"
     { simplified_land_shp := "CTRY_DEC_2024_UK_BFC_simplified_100m.shp"
       buffer_shp := "CTRY_DEC_2024_UK_BFC_buffer_3nm_simplified_100m.shp"
       map_center := (54.5, -2.0)
       map_zoom := 5
       target_buffer_crs := "EPSG:27700"
       sea_boxes :=
         [⟨"North Sea", 53.0, 58.0, 1.0, 3.0⟩,
          ⟨"English Channel E", 49.5, 50.5, -1.0, 1.0⟩,
          ⟨"English Channel W", 49.0, 50.0, -6.0, -4.0⟩,
          ⟨"Irish Sea", 52.5, 54.5, -5.5, -3.5⟩] }
     rfl rfl rfl (by decide) (by decide)).2.1⟩
